import Mathlib

/-!
Verification of the role-scoped authorization, soft-delete consistency and
curriculum-layout core of the course-catalog backend.

The definitions below are a shallow embedding of the controller functions in
`src/controllers/adminController.js`, `src/controllers/authController.js` and
the course controller (`src/unnamed/part_002`, internally
`cursadoController.js`).  Each SQL statement is modelled as the corresponding
list operation over an explicit database value; each Express handler becomes a
pure function from its inputs and the database to the (possibly unchanged)
database and a response.  Transactions are modelled by returning the original
database on every rollback path.  `ORDER BY` clauses are not modelled: the
claims under verification only concern row membership, statuses and field
values, never presentation order.
-/

namespace ProyectoCursado

/-! ## Entity store (relational rows as structures) -/

/-- Row of table `administrador`. -/
structure Administrador where
  id_administrador : Nat
  nombre_administrador : String
  email : Option String
  contrasena : String
  dni : Option String
  telefono : Option String
  rol : String
  estado : String
  fecha_eliminacion : Option Nat
  id_administrador_eliminacion : Option Nat
deriving DecidableEq, BEq, Repr

/-- Row of table `carrera`. -/
structure Carrera where
  id_carrera : Nat
  nombre_carrera : String
  duracion : String
  modalidad : String
  anio_aprobacion : String
  estado : String
  fecha_eliminacion : Option Nat
  id_administrador_eliminacion : Option Nat
deriving DecidableEq, BEq, Repr

/-- Row of the join table `admin_carrera` (career-coordinator Assignment). -/
structure AdminCarrera where
  id_administrador : Nat
  id_carrera : Nat
deriving DecidableEq, BEq, Repr

/-- Row of table `materia`. -/
structure Materia where
  id_materia : Nat
  nombre_materia : String
  id_carrera : Nat
  anio : Nat
  campo_formacion : Option String
  modalidad : Option String
  formato : Option String
  horas_semanales : Option Nat
  total_horas_anuales : Option Nat
  acreditacion : Option String
  estado : String
  fecha_eliminacion : Option Nat
  id_administrador_eliminacion : Option Nat
  vistas : Nat
deriving DecidableEq, BEq, Repr

/-- Row of table `horario`. -/
structure Horario where
  id_horario : Nat
  id_materia : Nat
  dia_semana : String
  hora_inicio : String
  hora_fin : String
  estado : String
  fecha_eliminacion : Option Nat
  id_administrador_eliminacion : Option Nat
deriving DecidableEq, BEq, Repr

/-- Row of table `correlatividad`. -/
structure Correlatividad where
  id_correlatividad : Nat
  id_materia_principal : Nat
  id_materia_requisito : Nat
  tipo : String
  estado_requisito : String
  estado : String
  fecha_eliminacion : Option Nat
  id_administrador_eliminacion : Option Nat
deriving DecidableEq, BEq, Repr

/-- The whole relational store. -/
structure DB where
  administradores : List Administrador
  carreras : List Carrera
  admin_carrera : List AdminCarrera
  materias : List Materia
  horarios : List Horario
  correlatividades : List Correlatividad
deriving DecidableEq, BEq, Repr

/-! ## Responses

Every handler answers with a JSON payload or an HTTP error status plus a
message.  The distinct Spanish message strings of the source are represented
by the constructors of `ErrMsg`, so that distinctness of error reports is a
decidable statement. -/

/-- Which password rule failed, mirroring the five messages of
`validatePasswordRules`. -/
inductive PwErr where
  | tooShort
  | noUpper
  | noLower
  | noDigit
  | noSpecial
deriving DecidableEq, BEq, Repr

/-- One constructor per distinct error message produced by the embedded
handlers. -/
inductive ErrMsg where
  | camposFaltantes
  | adminNoEncontrado
  | coordSoloPropiosDatos
  | coordNoRolEstado
  | autoSuspension
  | autoEliminacion
  | passwordInvalida (detalle : PwErr)
  | sinCamposValidos
  | duplicado
  | noAutorizado
  | adminNoEncontradoOYaInactivo
  | noSePudoMarcarInactivo
  | materiaNoEncontrada
  | materiaYaInactiva
  | materiaNoEncontradaParaBaja
  | materiaNoEncontradaOAccesoDenegado
  | coordSinCarreras
  | horarioNoEncontrado
  | horarioYaInactivo
  | horarioNoEncontradoParaBaja
  | correlatividadNoEncontrada
  | correlatividadYaInactiva
  | correlatividadNoEncontradaParaBaja
  | carreraNoEncontrada
  | carreraYaInactiva
  | accesoDenegadoRol
  | permisosInsuficientes
  | soloRectorCierraOInactiva
  | estadoCarreraInvalido
  | faltanCamposCarrera
  | soloCarrerasAsignadas
  | soloRectorElimina
  | faltaIdMateria
  | noCoordinaCarreraMateria
  | noCoordinaCarreraMateriaPrincipal
  | soloMateriasDeSusCarreras
  | nombreYContrasenaObligatorios
  | faltanDatosReset
  | enlaceInvalido
  | enlaceInvalidoOExpirado
  | errorInterno
deriving DecidableEq, BEq, Repr

/-- Handler outcome: success payload, or HTTP status code with a message. -/
inductive Resp (α : Type) where
  | ok : α → Resp α
  | err : Nat → ErrMsg → Resp α
deriving DecidableEq, BEq, Repr

/-! ## JavaScript value helpers

The handlers distinguish a field that is absent (`undefined`, here `none`)
from one that is present but falsy (the empty string).  `jsOrStr` models the
JavaScript `x || d` fallback for string fields; `jsTruthyStr` models
`if (x)` / `!x` for optional string fields. -/

/-- `x || d` for an optional string: absent or empty falls back to `d`. -/
def jsOrStr (x : Option String) (d : String) : String :=
  match x with
  | none => d
  | some s => if s = "" then d else s

/-- JavaScript truthiness of an optional string field. -/
def jsTruthyStr (x : Option String) : Bool :=
  match x with
  | none => false
  | some s => s ≠ ""

/-- JavaScript truthiness of an optional numeric id (`0` is falsy). -/
def jsTruthyNat (x : Option Nat) : Bool :=
  match x with
  | none => false
  | some n => n ≠ 0

/-- ASCII part of the JavaScript `\s` character class. -/
def isJsSpace (c : Char) : Bool :=
  c = ' ' || c = '\t' || c = '\n' || c = '\r' || c = '\x0b' || c = '\x0c'

/-- `String.prototype.trim`: strip leading and trailing whitespace
(kernel-computable model of the `.trim()` call in `updateUserByAdmin`). -/
def jsTrim (s : String) : String :=
  String.mk (((s.toList.dropWhile isJsSpace).reverse.dropWhile
    isJsSpace).reverse)

/-- `validatePasswordRules` from `adminController.js`: length at least 8, one
uppercase letter, one lowercase letter, one digit, and one character that is
neither alphanumeric nor whitespace.  Returns `none` when the password is
valid, mirroring the `null` return of the source. -/
def validatePasswordRules (password : String) : Option PwErr :=
  if password.length < 8 then some .tooShort
  else if !(password.any Char.isUpper) then some .noUpper
  else if !(password.any Char.isLower) then some .noLower
  else if !(password.any Char.isDigit) then some .noDigit
  else if !(password.any fun c => !(c.isAlphanum) && !(isJsSpace c)) then
    some .noSpecial
  else none

/-! ## Authenticated principal

`req.user` as attached by the `protect` middleware: identity, role, and (for
a Coordinador) the list of assigned career ids (`null` for a Rector). -/

/-- The `req.user` context built by `authMiddleware.protect`. -/
structure UserCtx where
  id_administrador : Nat
  rol : String
  carreras_a_cargo_ids : Option (List Nat)
deriving DecidableEq, BEq, Repr

/-- `checkMateriaAccess` from `adminController.js`: the materia belongs to a
career coordinated by the given administrator; note the source compares the
materia state against the masculine spelling `activo` here. -/
def checkMateriaAccess (db : DB) (idMateria idAdministrador : Nat) : Bool :=
  db.materias.any fun m =>
    m.id_materia == idMateria && m.estado == "activo" &&
    (db.admin_carrera.any fun ac =>
      ac.id_carrera == m.id_carrera && ac.id_administrador == idAdministrador &&
      (db.administradores.any fun a =>
        a.id_administrador == ac.id_administrador &&
        (a.estado == "activo" || a.estado == "suspendido")))

/-! ## Read paths (list and by-id queries) -/

/-- Optional `id_carrera` query filter of `getMateriasAll`. -/
def materiaQueryOk (q : Option Nat) (m : Materia) : Bool :=
  match q with
  | none => true
  | some idq => m.id_carrera == idq

/-- `getMateriasAll` from `adminController.js`: list subjects.  A Coordinador
sees only subjects of assigned careers (empty assignment set short-circuits to
an empty list); a Rector sees all; both can filter by `id_carrera` and only
rows with `estado = activa` are returned. -/
def getMateriasAll (user : UserCtx) (idCarreraQuery : Option Nat) (db : DB) :
    Resp (List Materia) :=
  if user.rol = "Coordinador" then
    match user.carreras_a_cargo_ids with
    | none => Resp.ok []
    | some carrerasIds =>
      if carrerasIds.length = 0 then Resp.ok []
      else
        Resp.ok (db.materias.filter fun m =>
          carrerasIds.contains m.id_carrera && materiaQueryOk idCarreraQuery m &&
          m.estado == "activa")
  else if user.rol = "Rector" then
    Resp.ok (db.materias.filter fun m =>
      materiaQueryOk idCarreraQuery m && m.estado == "activa")
  else Resp.err 403 .accesoDenegadoRol

/-- `getMateriaById` from `adminController.js`: fetch one subject by id,
restricted to `estado = activa` and, for a Coordinador, to assigned careers. -/
def getMateriaById (user : UserCtx) (idMateria : Nat) (db : DB) : Resp Materia :=
  if user.rol = "Coordinador" then
    match user.carreras_a_cargo_ids with
    | none => Resp.err 403 .coordSinCarreras
    | some carrerasIds =>
      if carrerasIds.length = 0 then Resp.err 403 .coordSinCarreras
      else
        match db.materias.filter (fun m =>
          m.id_materia == idMateria && m.estado == "activa" &&
          carrerasIds.contains m.id_carrera) with
        | [] => Resp.err 404 .materiaNoEncontradaOAccesoDenegado
        | m :: _ => Resp.ok m
  else
    match db.materias.filter (fun m =>
      m.id_materia == idMateria && m.estado == "activa") with
    | [] => Resp.err 404 .materiaNoEncontradaOAccesoDenegado
    | m :: _ => Resp.ok m

/-- `getHorariosByMateria` from the course controller (public read): schedule
slots of a subject with `estado = activa`; the query joins no other table. -/
def getHorariosByMateria (idMateria : Option Nat) (db : DB) :
    Resp (List Horario) :=
  match idMateria with
  | none => Resp.err 400 .faltaIdMateria
  | some idm =>
    Resp.ok (db.horarios.filter fun h =>
      h.id_materia == idm && h.estado == "activa")

/-- `getHorariosPorMateria` from `adminController.js`: schedule slots of a
subject, inner-joined with `materia` and `carrera`; a Coordinador is further
restricted to careers in their `admin_carrera` rows.  A missing `id_materia`
query parameter yields an empty 200 response. -/
def getHorariosPorMateria (user : UserCtx) (idMateria : Option Nat) (db : DB) :
    Resp (List Horario) :=
  match idMateria with
  | none => Resp.ok []
  | some idm =>
    if user.rol = "Coordinador" || user.rol = "Rector" then
      Resp.ok (db.horarios.filter fun h =>
        db.materias.any fun m =>
          m.id_materia == h.id_materia &&
          (db.carreras.any fun c =>
            c.id_carrera == m.id_carrera &&
            h.id_materia == idm && h.estado == "activa" &&
            (user.rol != "Coordinador" ||
              db.admin_carrera.any fun ac =>
                ac.id_carrera == c.id_carrera &&
                ac.id_administrador == user.id_administrador)))
    else Resp.err 403 .permisosInsuficientes

/-- `getCorrelatividadesPorMateria` from `adminController.js`: prerequisite
edges whose principal subject is the given materia, with `estado = activa`,
joined against both subjects; a Coordinador is restricted to principal
subjects of assigned careers. -/
def getCorrelatividadesPorMateria (user : UserCtx)
    (idMateriaPrincipal : Option Nat) (db : DB) : Resp (List Correlatividad) :=
  match idMateriaPrincipal with
  | none => Resp.err 400 .faltaIdMateria
  | some idp =>
    if user.rol = "Coordinador" || user.rol = "Rector" then
      Resp.ok (db.correlatividades.filter fun c =>
        c.id_materia_principal == idp && c.estado == "activa" &&
        (db.materias.any fun mp =>
          mp.id_materia == c.id_materia_principal &&
          (user.rol != "Coordinador" ||
            db.admin_carrera.any fun ac =>
              ac.id_carrera == mp.id_carrera &&
              ac.id_administrador == user.id_administrador)) &&
        (db.materias.any fun mr => mr.id_materia == c.id_materia_requisito))
    else Resp.err 403 .permisosInsuficientes

/-- One result row of `getCarreras`: the career columns plus the left-joined
coordinator name (`none` when the career has no coordinator). -/
abbrev CarreraRow := Carrera × Option String

/-- Left join of one career against `admin_carrera` and `administrador`
(with the join condition `rol = Coordinador`), as in `getCarreras`. -/
def carreraJoinRows (db : DB) (c : Carrera) : List CarreraRow :=
  let coords := (db.admin_carrera.filter fun ac =>
      ac.id_carrera == c.id_carrera).filterMap fun ac =>
        db.administradores.find? fun a =>
          a.id_administrador == ac.id_administrador && a.rol == "Coordinador"
  match coords with
  | [] => [(c, none)]
  | cs => cs.map fun a => (c, some a.nombre_administrador)

/-- `getCarreras` from `adminController.js`: a Rector lists careers with
`estado` in `activa`/`cerrada`; a Coordinador lists only `activa` careers in
their `admin_carrera` rows; other roles are rejected.  `SELECT DISTINCT` is
modelled by `eraseDups`. -/
def getCarreras (user : UserCtx) (db : DB) : Resp (List CarreraRow) :=
  if user.rol = "Coordinador" then
    Resp.ok (((db.carreras.filter fun c =>
      c.estado == "activa" &&
      db.admin_carrera.any fun ac =>
        ac.id_carrera == c.id_carrera &&
        ac.id_administrador == user.id_administrador).flatMap
          (carreraJoinRows db)).eraseDups)
  else if user.rol = "Rector" then
    Resp.ok (((db.carreras.filter fun c =>
      c.estado == "activa" || c.estado == "cerrada").flatMap
        (carreraJoinRows db)).eraseDups)
  else Resp.err 403 .permisosInsuficientes

/-! ## Administrator update (`updateUserByAdmin`)

The handler runs inside one transaction; every early `rollback` path returns
the database unchanged.  The password hash and the `NOW()` timestamp are
passed in as parameters (`hash`, `now`). -/

/-- The request body of `updateUserByAdmin`; `none` is an absent field. -/
structure UpdateUserBody where
  nombre_administrador : Option String
  email : Option String
  newContrasena : Option String
  dni : Option String
  telefono : Option String
  rol : Option String
  estado : Option String
deriving DecidableEq, BEq, Repr

/-- Step 4 of `updateUserByAdmin`: the personal columns pushed into the
dynamic `UPDATE` (present fields only; empty strings for `email`, `dni`,
`telefono` are stored as `NULL` via `x || null`). -/
def applyPersonalFields (body : UpdateUserBody) (a : Administrador) :
    Administrador :=
  let a := match body.nombre_administrador with
    | some n => { a with nombre_administrador := n }
    | none => a
  let a := match body.email with
    | some e => { a with email := if e = "" then none else some e }
    | none => a
  let a := match body.dni with
    | some d => { a with dni := if d = "" then none else some d }
    | none => a
  match body.telefono with
  | some t => { a with telefono := if t = "" then none else some t }
  | none => a

/-- Step 4 of `updateUserByAdmin`, protected columns: `rol`, `estado` and the
audit fields, pushed only when the logged-in principal is a Rector. -/
def applyProtectedFields (loggedRol : String) (loggedId : Nat) (now : Nat)
    (body : UpdateUserBody) (a : Administrador) : Administrador :=
  if loggedRol = "Rector" then
    let a := match body.rol with
      | some r => { a with rol := r }
      | none => a
    match body.estado with
    | some e =>
      let a := { a with estado := e }
      if e = "suspendido" ∨ e = "inactivo" then
        { a with fecha_eliminacion := some now,
                 id_administrador_eliminacion := some loggedId }
      else if e = "activo" then
        { a with fecha_eliminacion := none,
                 id_administrador_eliminacion := none }
      else a
    | none => a
  else a

/-- `updateUserByAdmin` from `adminController.js`.  Access control: a
Coordinador may only edit their own record and may not touch `rol`/`estado`;
no principal may switch their own state to `suspendido`/`inactivo` unless the
requested value equals the current one; suspending or inactivating a
Coordinador removes their `admin_carrera` rows inside the same transaction. -/
def updateUserByAdmin (hash : String → String) (now : Nat)
    (loggedId : Nat) (loggedRol : String) (idParam : Nat)
    (body : UpdateUserBody) (db : DB) : DB × Resp Unit :=
  match db.administradores.find? (fun a => a.id_administrador == idParam) with
  | none => (db, .err 404 .adminNoEncontrado)
  | some currentAdmin =>
    let currentRol := currentAdmin.rol
    let currentEstado := currentAdmin.estado
    if loggedRol = "Coordinador" ∧ loggedId ≠ idParam then
      (db, .err 403 .coordSoloPropiosDatos)
    else if loggedRol = "Coordinador" ∧ (body.rol ≠ none ∨ body.estado ≠ none) then
      (db, .err 403 .coordNoRolEstado)
    else
      let estadoAUsar := jsOrStr body.estado currentEstado
      if loggedId = idParam ∧
          (estadoAUsar = "suspendido" ∨ estadoAUsar = "inactivo") ∧
          estadoAUsar ≠ currentEstado then
        (db, .err 403 .autoSuspension)
      else
        let rolAUsar := jsOrStr body.rol currentRol
        let estadoFinal := estadoAUsar
        let dbAssign :=
          if rolAUsar = "Coordinador" ∧
              (estadoFinal = "suspendido" ∨ estadoFinal = "inactivo") then
            { db with admin_carrera := db.admin_carrera.filter (fun ac =>
                !(ac.id_administrador == idParam)) }
          else db
        let trimmedNew :=
          if jsTruthyStr body.newContrasena then
            jsTrim (body.newContrasena.getD "")
          else ""
        if 0 < trimmedNew.length ∧
            (validatePasswordRules trimmedNew) ≠ none then
          (db, .err 400 (.passwordInvalida ((validatePasswordRules
            trimmedNew).getD .tooShort)))
        else
          let hasParts :=
            body.nombre_administrador ≠ none ∨ body.email ≠ none ∨
            body.dni ≠ none ∨ body.telefono ≠ none ∨
            (loggedRol = "Rector" ∧ (body.rol ≠ none ∨ body.estado ≠ none)) ∨
            0 < trimmedNew.length
          if ¬hasParts then (db, .err 400 .sinCamposValidos)
          else
            let updFull := fun (a : Administrador) =>
              let a := applyProtectedFields loggedRol loggedId now body
                (applyPersonalFields body a)
              if 0 < trimmedNew.length then
                { a with contrasena := hash trimmedNew }
              else a
            let newAdmins := dbAssign.administradores.map fun a =>
              if a.id_administrador == idParam then updFull a else a
            ({ dbAssign with administradores := newAdmins }, .ok ())

/-! ## Administrator soft delete (`deleteUserByAdmin`)

The source runs two statements inside one transaction (delete the
`admin_carrera` rows of a Coordinador, then soft-delete the administrator
with audit columns); any thrown error triggers a rollback.  The possibility
of the storage engine failing at either statement is made explicit through
`DelFail` so the atomicity requirement can be stated. -/

/-- The audit update applied by the administrator soft delete. -/
def softDeleteAdmin (now loggedId : Nat) (a : Administrador) :
    Administrador :=
  { a with estado := "inactivo", fecha_eliminacion := some now,
           id_administrador_eliminacion := some loggedId }

/-- Which transaction step (if any) the storage engine fails at. -/
inductive DelFail where
  | nofail
  | atAssignDelete
  | atAuditUpdate
deriving DecidableEq, BEq, Repr

/-- `deleteUserByAdmin` from `adminController.js`. -/
def deleteUserByAdmin (now : Nat) (loggedId : Nat) (idParam : Nat)
    (fail : DelFail) (db : DB) : DB × Resp Nat :=
  if loggedId = 0 then (db, .err 401 .noAutorizado)
  else if idParam = loggedId then (db, .err 403 .autoEliminacion)
  else
    match db.administradores.find? (fun a => a.id_administrador == idParam) with
    | none => (db, .err 404 .adminNoEncontrado)
    | some admin =>
      if admin.estado = "inactivo" then
        (db, .err 404 .adminNoEncontradoOYaInactivo)
      else if admin.rol = "Coordinador" ∧ fail = .atAssignDelete then
        (db, .err 500 .errorInterno)
      else
        let db1 :=
          if admin.rol = "Coordinador" then
            { db with admin_carrera := db.admin_carrera.filter (fun ac =>
                !(ac.id_administrador == idParam)) }
          else db
        if fail = .atAuditUpdate then (db, .err 500 .errorInterno)
        else
          let updated := softDeleteAdmin now loggedId
          let affected := (db1.administradores.filter fun a =>
            a.id_administrador == idParam && decide (updated a ≠ a)).length
          if affected = 0 then (db, .err 404 .noSePudoMarcarInactivo)
          else
            let newAdmins := db1.administradores.map fun a =>
              if a.id_administrador == idParam then updated a else a
            ({ db1 with administradores := newAdmins }, .ok idParam)

/-! ## Entity soft deletes (subject, schedule slot, prerequisite edge, career)

Each handler first reads the row, answers `400` when the row is already
inactive (distinct from the `404` given for an absent row), checks the
Coordinador scope, and then applies the audit update.  `affectedRows` is
modelled with MySQL changed-rows semantics. -/

/-- The audit update applied by the subject soft delete. -/
def bajaMateria (now adminId : Nat) (m : Materia) : Materia :=
  { m with estado := "inactiva", fecha_eliminacion := some now,
           id_administrador_eliminacion := some adminId }

/-- The audit update applied by the schedule-slot soft delete. -/
def bajaHorario (now adminId : Nat) (h : Horario) : Horario :=
  { h with estado := "inactiva", fecha_eliminacion := some now,
           id_administrador_eliminacion := some adminId }

/-- The audit update applied by the prerequisite-edge soft delete. -/
def bajaCorrelatividad (now adminId : Nat) (c : Correlatividad) :
    Correlatividad :=
  { c with estado := "inactiva", fecha_eliminacion := some now,
           id_administrador_eliminacion := some adminId }

/-- The audit update applied by the career soft delete. -/
def bajaCarrera (now adminId : Nat) (c : Carrera) : Carrera :=
  { c with estado := "inactiva", fecha_eliminacion := some now,
           id_administrador_eliminacion := some adminId }

/-- `deleteMateria` from `adminController.js`.  The `carreras_a_cargo_ids`
array is always present for a Coordinador (set by the middleware), hence the
`getD []`. -/
def deleteMateria (now : Nat) (user : UserCtx) (idMateria : Nat) (db : DB) :
    DB × Resp Unit :=
  match db.materias.find? (fun m => m.id_materia == idMateria) with
  | none => (db, .err 404 .materiaNoEncontrada)
  | some materia =>
    if materia.estado = "inactiva" then (db, .err 400 .materiaYaInactiva)
    else if user.rol = "Coordinador" ∧
        ¬((user.carreras_a_cargo_ids.getD []).contains materia.id_carrera) then
      (db, .err 403 .soloMateriasDeSusCarreras)
    else if user.rol ≠ "Coordinador" ∧ user.rol ≠ "Rector" then
      (db, .err 403 .accesoDenegadoRol)
    else
      let updated := bajaMateria now user.id_administrador
      let affected := (db.materias.filter fun m =>
        m.id_materia == idMateria && decide (updated m ≠ m)).length
      if affected = 0 then (db, .err 404 .materiaNoEncontradaParaBaja)
      else
        let newMaterias := db.materias.map fun m =>
          if m.id_materia == idMateria then updated m else m
        ({ db with materias := newMaterias }, .ok ())

/-- `deleteHorario` from `adminController.js`; its `UPDATE` additionally
requires `estado = activa` in the `WHERE` clause. -/
def deleteHorario (now : Nat) (user : UserCtx) (idHorario : Nat) (db : DB) :
    DB × Resp Unit :=
  match db.horarios.find? (fun h => h.id_horario == idHorario) with
  | none => (db, .err 404 .horarioNoEncontrado)
  | some horario =>
    if horario.estado = "inactiva" then (db, .err 400 .horarioYaInactivo)
    else if user.rol = "Coordinador" ∧
        ¬(checkMateriaAccess db horario.id_materia user.id_administrador) then
      (db, .err 403 .noCoordinaCarreraMateria)
    else if user.rol ≠ "Coordinador" ∧ user.rol ≠ "Rector" then
      (db, .err 403 .permisosInsuficientes)
    else
      let updated := bajaHorario now user.id_administrador
      let affected := (db.horarios.filter fun h =>
        h.id_horario == idHorario && h.estado == "activa" &&
          decide (updated h ≠ h)).length
      if affected = 0 then (db, .err 404 .horarioNoEncontradoParaBaja)
      else
        let newHorarios := db.horarios.map fun h =>
          if h.id_horario == idHorario && h.estado == "activa" then updated h
          else h
        ({ db with horarios := newHorarios }, .ok ())

/-- `deleteCorrelatividad` from `adminController.js`. -/
def deleteCorrelatividad (now : Nat) (user : UserCtx) (idCorrelatividad : Nat)
    (db : DB) : DB × Resp Unit :=
  match db.correlatividades.find?
      (fun c => c.id_correlatividad == idCorrelatividad) with
  | none => (db, .err 404 .correlatividadNoEncontrada)
  | some corr =>
    if corr.estado = "inactiva" then (db, .err 400 .correlatividadYaInactiva)
    else if user.rol = "Coordinador" ∧
        ¬(checkMateriaAccess db corr.id_materia_principal
            user.id_administrador) then
      (db, .err 403 .noCoordinaCarreraMateriaPrincipal)
    else if user.rol ≠ "Coordinador" ∧ user.rol ≠ "Rector" then
      (db, .err 403 .permisosInsuficientes)
    else
      let updated := bajaCorrelatividad now user.id_administrador
      let affected := (db.correlatividades.filter fun c =>
        c.id_correlatividad == idCorrelatividad && decide (updated c ≠ c)).length
      if affected = 0 then
        (db, .err 404 .correlatividadNoEncontradaParaBaja)
      else
        let newCorrelatividades := db.correlatividades.map fun c =>
          if c.id_correlatividad == idCorrelatividad then updated c else c
        ({ db with correlatividades := newCorrelatividades }, .ok ())

/-- `deleteCarrera` from `adminController.js`: Rector only; the `UPDATE`
carries `estado != inactiva` in its `WHERE` clause, and on success the
career's `admin_carrera` rows are removed inside the same transaction. -/
def deleteCarrera (now : Nat) (user : UserCtx) (idCarrera : Nat) (db : DB) :
    DB × Resp Unit :=
  if user.rol ≠ "Rector" then (db, .err 403 .soloRectorElimina)
  else
    let updated := bajaCarrera now user.id_administrador
    let affected := (db.carreras.filter fun c =>
      c.id_carrera == idCarrera && c.estado != "inactiva" &&
        decide (updated c ≠ c)).length
    if affected = 0 then
      if db.carreras.any (fun c => c.id_carrera == idCarrera) then
        (db, .err 400 .carreraYaInactiva)
      else (db, .err 404 .carreraNoEncontrada)
    else
      let newCarreras := db.carreras.map fun c =>
        if c.id_carrera == idCarrera && c.estado != "inactiva" then updated c
        else c
      let newAssign := db.admin_carrera.filter fun ac =>
        !(ac.id_carrera == idCarrera)
      ({ db with carreras := newCarreras, admin_carrera := newAssign },
       .ok ())

/-! ## Career update (`updateCarrera`)

One transaction updates the `carrera` columns and then replaces the
`admin_carrera` rows of the career (delete all, then insert one when a
coordinator id was supplied).  In the source the transaction is committed
before the `affectedRows` check, so the assignment replacement persists even
on the no-changes path. -/

/-- The request body of `updateCarrera`. -/
structure UpdateCarreraBody where
  nombre_carrera : Option String
  duracion : Option String
  modalidad : Option String
  anio_aprobacion : Option String
  id_coordinador : Option Nat
  estado : Option String
deriving DecidableEq, BEq, Repr

/-- The `estado`-dependent part of the dynamic `UPDATE carrera` statement. -/
def applyCarreraEstado (now : Nat) (loggedId : Nat)
    (estado : Option String) (c : Carrera) : Carrera :=
  if jsTruthyStr estado then
    let e := estado.getD ""
    let c := { c with estado := e }
    if e = "cerrada" ∨ e = "inactiva" then
      { c with fecha_eliminacion := some now,
               id_administrador_eliminacion := some loggedId }
    else if e = "activa" then
      { c with fecha_eliminacion := none, id_administrador_eliminacion := none }
    else c
  else c

/-- `updateCarrera` from `adminController.js`. -/
def updateCarrera (now : Nat) (user : UserCtx) (idCarrera : Nat)
    (body : UpdateCarreraBody) (db : DB) : DB × Resp Unit :=
  if ¬(jsTruthyStr body.nombre_carrera) ∨ ¬(jsTruthyStr body.duracion) ∨
     ¬(jsTruthyStr body.modalidad) ∨ ¬(jsTruthyStr body.anio_aprobacion) then
    (db, .err 400 .faltanCamposCarrera)
  else if jsTruthyStr body.estado ∧ body.estado.getD "" ≠ "activa" ∧
      body.estado.getD "" ≠ "cerrada" ∧ body.estado.getD "" ≠ "inactiva" then
    (db, .err 400 .estadoCarreraInvalido)
  else if jsTruthyStr body.estado ∧
      (body.estado.getD "" = "cerrada" ∨ body.estado.getD "" = "inactiva") ∧
      user.rol ≠ "Rector" then
    (db, .err 403 .soloRectorCierraOInactiva)
  else if user.rol = "Coordinador" ∧
      ¬(db.admin_carrera.any fun ac =>
        ac.id_administrador == user.id_administrador &&
        ac.id_carrera == idCarrera) then
    (db, .err 403 .soloCarrerasAsignadas)
  else
    let updated := fun (c : Carrera) =>
      applyCarreraEstado now user.id_administrador body.estado
        { c with nombre_carrera := body.nombre_carrera.getD "",
                 duracion := body.duracion.getD "",
                 modalidad := body.modalidad.getD "",
                 anio_aprobacion := body.anio_aprobacion.getD "" }
    let newCarreras := db.carreras.map fun c =>
      if c.id_carrera == idCarrera then updated c else c
    let newAssign :=
      (db.admin_carrera.filter fun ac => !(ac.id_carrera == idCarrera)) ++
      (if jsTruthyNat body.id_coordinador then
        [{ id_administrador := body.id_coordinador.getD 0,
           id_carrera := idCarrera }]
      else [])
    let affected := (db.carreras.filter fun c =>
      c.id_carrera == idCarrera && decide (updated c ≠ c)).length
    let db2 := { db with carreras := newCarreras, admin_carrera := newAssign }
    if affected = 0 then
      if db.carreras.any (fun c => c.id_carrera == idCarrera) then
        (db2, .ok ())
      else (db2, .err 404 .carreraNoEncontrada)
    else (db2, .ok ())

/-! ## Administrator creation and authentication flows -/

/-- Uniqueness check standing for the `ER_DUP_ENTRY` reported by the storage
engine on the unique columns named in the handlers (administrator name,
email, dni); MySQL `NULL`s never collide. -/
def dupAdmin (db : DB) (nombre : String) (email dni : Option String) : Bool :=
  db.administradores.any fun a =>
    a.nombre_administrador == nombre ||
    (match email, a.email with
     | some e, some e2 => e == e2
     | _, _ => false) ||
    (match dni, a.dni with
     | some d, some d2 => d == d2
     | _, _ => false)

/-- The request body of `createUserByAdmin`. -/
structure CreateUserBody where
  nombre_administrador : Option String
  email : Option String
  contrasena : Option String
  dni : Option String
  telefono : Option String
  rol : Option String
deriving DecidableEq, BEq, Repr

/-- `createUserByAdmin` from `adminController.js`: requires name, password
and role, enforces `validatePasswordRules` before hashing, then inserts the
row.  The `estado` column is not part of the `INSERT`; its schema default
(an active account, per the lifecycle in the documentation) is used. -/
def createUserByAdmin (hash : String → String) (newId : Nat)
    (body : CreateUserBody) (db : DB) : DB × Resp Nat :=
  if ¬(jsTruthyStr body.nombre_administrador) ∨
     ¬(jsTruthyStr body.contrasena) ∨ ¬(jsTruthyStr body.rol) then
    (db, .err 400 .camposFaltantes)
  else
    let pw := body.contrasena.getD ""
    match validatePasswordRules pw with
    | some e => (db, .err 400 (.passwordInvalida e))
    | none =>
      let nombre := body.nombre_administrador.getD ""
      let emailVal := if jsTruthyStr body.email then body.email else none
      let dniVal := if jsTruthyStr body.dni then body.dni else none
      let telVal := if jsTruthyStr body.telefono then body.telefono else none
      if dupAdmin db nombre emailVal dniVal then (db, .err 400 .duplicado)
      else
        let nuevo : Administrador :=
          { id_administrador := newId, nombre_administrador := nombre,
            email := emailVal, contrasena := hash pw, dni := dniVal,
            telefono := telVal, rol := body.rol.getD "", estado := "activo",
            fecha_eliminacion := none, id_administrador_eliminacion := none }
        ({ db with administradores := db.administradores ++ [nuevo] },
         .ok newId)

/-- A signed session token: the JWT payload `{ id_administrador, rol }`
produced by `generateToken` in `authController.js` (the signature mechanics
are an excluded collaborator). -/
structure Token where
  id_administrador : Nat
  rol : String
deriving DecidableEq, BEq, Repr

/-- `generateToken` from `authController.js`. -/
def generateToken (id : Nat) (rol : String) : Token :=
  { id_administrador := id, rol := rol }

/-- The request body of the public `registerUser` endpoint. -/
structure RegisterBody where
  nombre_administrador : Option String
  contrasena : Option String
  rol : Option String
  email : Option String
  dni : Option String
  telefono : Option String
deriving DecidableEq, BEq, Repr

/-- The 201 payload of `registerUser`. -/
structure RegisterResult where
  id_administrador : Nat
  nombre_administrador : String
  rol : String
  token : Token
deriving DecidableEq, BEq, Repr

/-- `registerUser` from `authController.js` (public route, no
authentication): hashes the supplied password without any strength
validation, defaults the role to `Rector` via `rol || 'Rector'`, inserts the
row and answers with a token for the resulting role. -/
def registerUser (hash : String → String) (newId : Nat) (body : RegisterBody)
    (db : DB) : DB × Resp RegisterResult :=
  if ¬(jsTruthyStr body.nombre_administrador) ∨ ¬(jsTruthyStr body.contrasena)
  then (db, .err 400 .nombreYContrasenaObligatorios)
  else
    let pw := body.contrasena.getD ""
    let rolFinal := jsOrStr body.rol "Rector"
    let nombre := body.nombre_administrador.getD ""
    let emailVal := if jsTruthyStr body.email then body.email else none
    let dniVal := if jsTruthyStr body.dni then body.dni else none
    let telVal := if jsTruthyStr body.telefono then body.telefono else none
    if dupAdmin db nombre emailVal dniVal then (db, .err 400 .duplicado)
    else
      let nuevo : Administrador :=
        { id_administrador := newId, nombre_administrador := nombre,
          email := emailVal, contrasena := hash pw, dni := dniVal,
          telefono := telVal, rol := rolFinal, estado := "activo",
          fecha_eliminacion := none, id_administrador_eliminacion := none }
      ({ db with administradores := db.administradores ++ [nuevo] },
       .ok { id_administrador := newId, nombre_administrador := nombre,
             rol := rolFinal, token := generateToken newId rolFinal })

/-- `resetPassword` from `authController.js`: token verification is the
excluded credential service, modelled by `verify`; the new password is
hashed and stored with no strength validation.  `affectedRows` uses MySQL
changed-rows semantics. -/
def resetPassword (hash : String → String) (verify : String → Option Nat)
    (token : Option String) (newPassword : Option String) (db : DB) :
    DB × Resp Unit :=
  if ¬(jsTruthyStr token) ∨ ¬(jsTruthyStr newPassword) then
    (db, .err 400 .faltanDatosReset)
  else
    match verify (token.getD "") with
    | none => (db, .err 401 .enlaceInvalidoOExpirado)
    | some adminId =>
      let hashed := hash (newPassword.getD "")
      let affected := (db.administradores.filter fun a =>
        a.id_administrador == adminId && a.contrasena != hashed).length
      if affected = 0 then (db, .err 404 .enlaceInvalido)
      else
        let newAdmins := db.administradores.map fun a =>
          if a.id_administrador == adminId then { a with contrasena := hashed }
          else a
        ({ db with administradores := newAdmins }, .ok ())

/-! ## Curriculum layout engine (`descargarPlanEstudioPDF`)

The pagination loop of the PDF generator, as a pure function.  Text
measurement (`doc.heightOfString`) is an oracle parameter `measure` mapping a
string and an available width to a height; the page height is the parameter
`pageH` (`doc.page.height` for A4 landscape).  The small vertical gap before
a year title and the gap after each block use the code's own estimation
constants (`smallSpaceHeight`, `spaceAfterBlock`). -/

/-- A subject as structured by `fetchPlanData` for the PDF: name plus the
three resolved prerequisite lists. -/
structure MateriaPlan where
  id_materia : Nat
  nombre_materia : String
  cursarAprobada : List Nat
  cursarRegular : List Nat
  rendirAprobada : List Nat
deriving DecidableEq, BEq, Repr

/-- `COL_WIDTHS` from the course controller. -/
def COL_WIDTHS : List ℚ := [30, 50, 160, 60, 60, 50, 60, 80, 80, 70, 90]

/-- Access a column width (indices are in range wherever used). -/
def colW (i : Nat) : ℚ := (COL_WIDTHS.getD i 0)

/-- Height of the merged year-title row. -/
def mergedAnioHeaderHeight : ℚ := 20

/-- Height of the column-header row. -/
def headerHeight : ℚ := 30

/-- Estimated height of the `moveDown(0.2)` gap before a year title. -/
def smallSpaceHeight : ℚ := 22 / 10

/-- Height of the per-year totals row. -/
def totalRowHeight : ℚ := 25

/-- Space after each year block. -/
def spaceAfterBlock : ℚ := 15

/-- Minimum height of a subject row. -/
def minRowHeight : ℚ := 18

/-- Bottom margin used in the page-break comparison. -/
def pageBottomMargin : ℚ := 30

/-- Vertical start position on a fresh page (top margin). -/
def pageTopY : ℚ := 30

/-- `list.join(', ')` used for each prerequisite cell. -/
def joinComma (l : List Nat) : String :=
  String.intercalate ", " (l.map toString)

/-- Measured height of one subject row: the wrapped subject name in column 2
and the three prerequisite cells in columns 8-10, each with 3 points of
padding on both sides, floored at `minRowHeight`. -/
def rowHeightOf (measure : String → ℚ → ℚ) (m : MateriaPlan) : ℚ :=
  let textHeight := measure m.nombre_materia (colW 2 - 6)
  let cells := [(joinComma m.cursarAprobada, colW 8),
                (joinComma m.cursarRegular, colW 9),
                (joinComma m.rendirAprobada, colW 10)]
  let maxCorrHeight := cells.foldl
    (fun acc cell => max acc (measure cell.1 (cell.2 - 6))) 0
  max minRowHeight (max (textHeight + 6) (maxCorrHeight + 6))

/-- Precomputed height of one year block: year title row, column-header row,
all measured subject rows, and the totals row. -/
def blockHeightOf (measure : String → ℚ → ℚ) (materias : List MateriaPlan) :
    ℚ :=
  mergedAnioHeaderHeight + headerHeight +
    (materias.map (rowHeightOf measure)).sum + totalRowHeight

/-- A drawing primitive of the paginated document. -/
inductive DrawItem where
  | anioHeader (anio : Nat)
  | colHeader
  | subjectRow (id_materia : Nat)
  | totalRow (anio : Nat)
  | grandTotalRow
deriving DecidableEq, BEq, Repr

/-- A drawing primitive placed on a page at a vertical position. -/
structure Placed where
  page : Nat
  y : ℚ
  item : DrawItem
deriving DecidableEq, BEq, Repr

/-- Cursor of the layout loop: current page and vertical position. -/
structure LayoutState where
  page : Nat
  y : ℚ
deriving DecidableEq, BEq, Repr

/-- Accumulate the subject rows of a block from a starting position. -/
def drawRows (measure : String → ℚ → ℚ) (page : Nat) (y0 : ℚ)
    (materias : List MateriaPlan) : ℚ × List Placed :=
  materias.foldl
    (fun acc m =>
      (acc.1 + rowHeightOf measure m,
       acc.2 ++ [{ page := page, y := acc.1,
                   item := .subjectRow m.id_materia }]))
    (y0, [])

/-- One iteration of the per-year loop of `descargarPlanEstudioPDF`: decide
the page break from the whole block's precomputed height, then draw the year
title, the column header, every subject row and the totals row. -/
def drawBlock (measure : String → ℚ → ℚ) (pageH : ℚ) (s : LayoutState)
    (anio : Nat) (materias : List MateriaPlan) :
    LayoutState × List Placed :=
  let blockHeight := blockHeightOf measure materias
  let totalSpaceNeeded := smallSpaceHeight + blockHeight + spaceAfterBlock
  let start :=
    if s.y + totalSpaceNeeded > pageH - pageBottomMargin then
      (⟨s.page + 1, pageTopY⟩ : LayoutState)
    else s
  let yHdr := start.y + smallSpaceHeight
  let afterCols := yHdr + mergedAnioHeaderHeight + headerHeight
  let rows := drawRows measure start.page afterCols materias
  let items :=
    { page := start.page, y := yHdr, item := .anioHeader anio } ::
    { page := start.page, y := yHdr + mergedAnioHeaderHeight,
      item := .colHeader } ::
    rows.2 ++ [{ page := start.page, y := rows.1, item := .totalRow anio }]
  (⟨start.page, rows.1 + totalRowHeight + spaceAfterBlock⟩, items)

/-- Height of the final career-total row. -/
def finalTotalRowHeight : ℚ := 25

/-- The whole pagination loop: every year block in order, then the single
career-total row with its own whole-row page-break check. -/
def drawPlan (measure : String → ℚ → ℚ) (pageH : ℚ) (startY : ℚ)
    (blocks : List (Nat × List MateriaPlan)) : LayoutState × List Placed :=
  let afterBlocks := blocks.foldl
    (fun acc b =>
      let step := drawBlock measure pageH acc.1 b.1 b.2
      (step.1, acc.2 ++ step.2))
    ((⟨0, startY⟩ : LayoutState), [])
  let spaceForFinalTotal := finalTotalRowHeight + 10
  let s := afterBlocks.1
  let start :=
    if s.y + spaceForFinalTotal > pageH - pageBottomMargin then
      (⟨s.page + 1, pageTopY⟩ : LayoutState)
    else s
  (⟨start.page, start.y + finalTotalRowHeight⟩,
   afterBlocks.2 ++ [{ page := start.page, y := start.y,
                       item := .grandTotalRow }])

/-- Filename derivation of the PDF download: whitespace replaced by
underscores, then every character that is not alphanumeric or an underscore
removed. -/
def nombreArchivo (nombreCarrera : String) : String :=
  let replaced := nombreCarrera.map fun c => if c = ' ' then '_' else c
  let cleaned := String.mk (replaced.toList.filter fun c =>
    c.isAlphanum || c = '_')
  "Plan_Estudio_" ++ cleaned ++ "_IES6.pdf"

/-! ## Shared concrete fixtures used by counterexamples and witnesses -/

/-- A Rector principal. -/
def rectorCtx : UserCtx :=
  { id_administrador := 1, rol := "Rector", carreras_a_cargo_ids := none }

/-- A Rector administrator row. -/
def adminRector : Administrador :=
  { id_administrador := 1, nombre_administrador := "Root", email := none,
    contrasena := "hash0", dni := none, telefono := none, rol := "Rector",
    estado := "activo", fecha_eliminacion := none,
    id_administrador_eliminacion := none }

/-- A soft-deleted career. -/
def carreraInactiva : Carrera :=
  { id_carrera := 1, nombre_carrera := "Redes", duracion := "3",
    modalidad := "Presencial", anio_aprobacion := "2020",
    estado := "inactiva", fecha_eliminacion := some 50,
    id_administrador_eliminacion := some 1 }

/-- An active subject whose owning career is `carreraInactiva`. -/
def materiaDeCarreraInactiva : Materia :=
  { id_materia := 10, nombre_materia := "Algebra", id_carrera := 1, anio := 1,
    campo_formacion := none, modalidad := none, formato := none,
    horas_semanales := some 4, total_horas_anuales := some 120,
    acreditacion := none, estado := "activa", fecha_eliminacion := none,
    id_administrador_eliminacion := none, vistas := 0 }

/-- An active schedule slot of `materiaDeCarreraInactiva`. -/
def horarioDeCarreraInactiva : Horario :=
  { id_horario := 20, id_materia := 10, dia_semana := "Lunes",
    hora_inicio := "08:00", hora_fin := "10:00", estado := "activa",
    fecha_eliminacion := none, id_administrador_eliminacion := none }

/-- A soft-deleted subject of `carreraInactiva`, referenced as the required
subject of `correlatividadDeCarreraInactiva` (the prerequisite query joins
the required subject without any state condition). -/
def materiaRequisitoInactiva : Materia :=
  { id_materia := 12, nombre_materia := "Logica", id_carrera := 1, anio := 1,
    campo_formacion := none, modalidad := none, formato := none,
    horas_semanales := some 3, total_horas_anuales := some 96,
    acreditacion := none, estado := "inactiva", fecha_eliminacion := some 50,
    id_administrador_eliminacion := some 1, vistas := 0 }

/-- An active prerequisite edge whose principal subject belongs to
`carreraInactiva`. -/
def correlatividadDeCarreraInactiva : Correlatividad :=
  { id_correlatividad := 41, id_materia_principal := 10,
    id_materia_requisito := 12, tipo := "Cursar",
    estado_requisito := "Regular", estado := "activa",
    fecha_eliminacion := none, id_administrador_eliminacion := none }

/-- A Coordinador principal assigned (per the `admin_carrera` row below) to
the soft-deleted career 1 — reachable in the source because `updateCarrera`
re-inserts the assignment regardless of the requested career state. -/
def coordinadorDeCarreraInactiva : UserCtx :=
  { id_administrador := 5, rol := "Coordinador",
    carreras_a_cargo_ids := some [1] }

/-- A store holding an active subject, slot and prerequisite edge under a
soft-deleted career, with administrator 5 still assigned to that career. -/
def dbCarreraInactiva : DB :=
  { administradores := [adminRector], carreras := [carreraInactiva],
    admin_carrera := [{ id_administrador := 5, id_carrera := 1 }],
    materias := [materiaDeCarreraInactiva, materiaRequisitoInactiva],
    horarios := [horarioDeCarreraInactiva],
    correlatividades := [correlatividadDeCarreraInactiva] }

/-- An empty store. -/
def dbVacia : DB :=
  { administradores := [], carreras := [], admin_carrera := [],
    materias := [], horarios := [], correlatividades := [] }

/-! ## C1: cross-entity read invariant -/

/-- C1, counterexample.  The claim states that every read path for subjects,
schedule slots and prerequisite edges excludes rows whose owning career is
not active.  In this store the career is soft-deleted (`estado = inactiva`),
yet its active subject is returned by the subject list (to the Rector and to
the still-assigned Coordinador), the subject by-id read, the public schedule
read and the prerequisite read — the child of a deleted parent is
visible. -/
theorem claim1_counterexample :
    carreraInactiva ∈ dbCarreraInactiva.carreras ∧
    carreraInactiva.estado ≠ "activa" ∧
    materiaDeCarreraInactiva.id_carrera = carreraInactiva.id_carrera ∧
    getMateriasAll rectorCtx none dbCarreraInactiva =
      Resp.ok [materiaDeCarreraInactiva] ∧
    getMateriasAll coordinadorDeCarreraInactiva none dbCarreraInactiva =
      Resp.ok [materiaDeCarreraInactiva] ∧
    getMateriaById rectorCtx 10 dbCarreraInactiva =
      Resp.ok materiaDeCarreraInactiva ∧
    getHorariosByMateria (some 10) dbCarreraInactiva =
      Resp.ok [horarioDeCarreraInactiva] ∧
    getCorrelatividadesPorMateria rectorCtx (some 10) dbCarreraInactiva =
      Resp.ok [correlatividadDeCarreraInactiva] := by
  refine ⟨?_, by decide, by decide, by decide, by decide, by decide,
    by decide, by decide⟩
  simp [dbCarreraInactiva]

/-- C1, amended: the read paths for subjects, schedule slots and
prerequisite edges never consult the owning career's state.  Membership in
each result is characterised by the row's own lifecycle state, the request
filters and (for prerequisite edges) the joins on existing subjects, plus —
for a Coordinador — the assignment-set restriction; the `carreras` table
plays no role, so an active child of a non-active career is still
returned. -/
theorem claim1_theorem (db : DB) (uidR uidC : Nat) (ids : List Nat)
    (q : Option Nat) (m mC : Materia) (idm : Nat) (hor : Horario)
    (idp : Nat) (c cC : Correlatividad)
    (hids : ids ≠ []) :
    (∃ l, getMateriasAll
        { id_administrador := uidR, rol := "Rector",
          carreras_a_cargo_ids := none } q db = Resp.ok l ∧
      (m ∈ l ↔ m ∈ db.materias ∧ materiaQueryOk q m = true ∧
        m.estado = "activa")) ∧
    (∃ l, getMateriasAll
        { id_administrador := uidC, rol := "Coordinador",
          carreras_a_cargo_ids := some ids } q db = Resp.ok l ∧
      (mC ∈ l ↔ mC ∈ db.materias ∧ mC.id_carrera ∈ ids ∧
        materiaQueryOk q mC = true ∧ mC.estado = "activa")) ∧
    (∃ l, getHorariosByMateria (some idm) db = Resp.ok l ∧
      (hor ∈ l ↔ hor ∈ db.horarios ∧ hor.id_materia = idm ∧
        hor.estado = "activa")) ∧
    (∃ l, getCorrelatividadesPorMateria
        { id_administrador := uidR, rol := "Rector",
          carreras_a_cargo_ids := none } (some idp) db = Resp.ok l ∧
      (c ∈ l ↔ c ∈ db.correlatividades ∧ c.id_materia_principal = idp ∧
        c.estado = "activa" ∧
        (∃ mp ∈ db.materias, mp.id_materia = c.id_materia_principal) ∧
        (∃ mr ∈ db.materias, mr.id_materia = c.id_materia_requisito))) ∧
    (∃ l, getCorrelatividadesPorMateria
        { id_administrador := uidC, rol := "Coordinador",
          carreras_a_cargo_ids := some ids } (some idp) db = Resp.ok l ∧
      (cC ∈ l ↔ cC ∈ db.correlatividades ∧ cC.id_materia_principal = idp ∧
        cC.estado = "activa" ∧
        (∃ mp ∈ db.materias, mp.id_materia = cC.id_materia_principal ∧
          ∃ ac ∈ db.admin_carrera, ac.id_carrera = mp.id_carrera ∧
            ac.id_administrador = uidC) ∧
        (∃ mr ∈ db.materias, mr.id_materia = cC.id_materia_requisito))) := by
  refine ⟨?_, ?_, ?_, ?_, ?_⟩
  · refine ⟨_, rfl, ?_⟩
    simp [List.mem_filter, and_assoc]
  · refine ⟨db.materias.filter (fun x =>
      ids.contains x.id_carrera && materiaQueryOk q x &&
        x.estado == "activa"), ?_, ?_⟩
    · unfold getMateriasAll
      simp [List.length_eq_zero, hids]
    · simp [List.mem_filter, and_assoc]
  · refine ⟨_, rfl, ?_⟩
    simp [List.mem_filter, and_assoc]
  · refine ⟨_, rfl, ?_⟩
    simp [List.mem_filter, List.any_eq_true, and_assoc]
  · refine ⟨_, rfl, ?_⟩
    simp [List.mem_filter, List.any_eq_true, and_assoc]

/-- Witness for `claim1_theorem` at the concrete fixture store. -/
theorem claim1_witness :
    (([1] : List Nat) ≠ []) ∧
    ((∃ l, getMateriasAll
        { id_administrador := 1, rol := "Rector",
          carreras_a_cargo_ids := none } none dbCarreraInactiva =
          Resp.ok l ∧
      (materiaDeCarreraInactiva ∈ l ↔
        materiaDeCarreraInactiva ∈ dbCarreraInactiva.materias ∧
        materiaQueryOk none materiaDeCarreraInactiva = true ∧
        materiaDeCarreraInactiva.estado = "activa")) ∧
    (∃ l, getMateriasAll
        { id_administrador := 5, rol := "Coordinador",
          carreras_a_cargo_ids := some [1] } none dbCarreraInactiva =
          Resp.ok l ∧
      (materiaDeCarreraInactiva ∈ l ↔
        materiaDeCarreraInactiva ∈ dbCarreraInactiva.materias ∧
        materiaDeCarreraInactiva.id_carrera ∈ ([1] : List Nat) ∧
        materiaQueryOk none materiaDeCarreraInactiva = true ∧
        materiaDeCarreraInactiva.estado = "activa")) ∧
    (∃ l, getHorariosByMateria (some 10) dbCarreraInactiva = Resp.ok l ∧
      (horarioDeCarreraInactiva ∈ l ↔
        horarioDeCarreraInactiva ∈ dbCarreraInactiva.horarios ∧
        horarioDeCarreraInactiva.id_materia = 10 ∧
        horarioDeCarreraInactiva.estado = "activa")) ∧
    (∃ l, getCorrelatividadesPorMateria
        { id_administrador := 1, rol := "Rector",
          carreras_a_cargo_ids := none } (some 10) dbCarreraInactiva =
          Resp.ok l ∧
      (correlatividadDeCarreraInactiva ∈ l ↔
        correlatividadDeCarreraInactiva ∈
          dbCarreraInactiva.correlatividades ∧
        correlatividadDeCarreraInactiva.id_materia_principal = 10 ∧
        correlatividadDeCarreraInactiva.estado = "activa" ∧
        (∃ mp ∈ dbCarreraInactiva.materias, mp.id_materia =
          correlatividadDeCarreraInactiva.id_materia_principal) ∧
        (∃ mr ∈ dbCarreraInactiva.materias, mr.id_materia =
          correlatividadDeCarreraInactiva.id_materia_requisito))) ∧
    (∃ l, getCorrelatividadesPorMateria
        { id_administrador := 5, rol := "Coordinador",
          carreras_a_cargo_ids := some [1] } (some 10) dbCarreraInactiva =
          Resp.ok l ∧
      (correlatividadDeCarreraInactiva ∈ l ↔
        correlatividadDeCarreraInactiva ∈
          dbCarreraInactiva.correlatividades ∧
        correlatividadDeCarreraInactiva.id_materia_principal = 10 ∧
        correlatividadDeCarreraInactiva.estado = "activa" ∧
        (∃ mp ∈ dbCarreraInactiva.materias, mp.id_materia =
          correlatividadDeCarreraInactiva.id_materia_principal ∧
          ∃ ac ∈ dbCarreraInactiva.admin_carrera,
            ac.id_carrera = mp.id_carrera ∧ ac.id_administrador = 5) ∧
        (∃ mr ∈ dbCarreraInactiva.materias, mr.id_materia =
          correlatividadDeCarreraInactiva.id_materia_requisito)))) :=
  ⟨by decide,
    claim1_theorem dbCarreraInactiva 1 5 [1] none
      materiaDeCarreraInactiva materiaDeCarreraInactiva 10
      horarioDeCarreraInactiva 10 correlatividadDeCarreraInactiva
      correlatividadDeCarreraInactiva (by decide)⟩

/-! ## C2: Coordinador self-edit with protected fields -/

/-- A Coordinador administrator row. -/
def coordinadorAna : Administrador :=
  { id_administrador := 5, nombre_administrador := "Ana", email := none,
    contrasena := "hash5", dni := none, telefono := none,
    rol := "Coordinador", estado := "activo", fecha_eliminacion := none,
    id_administrador_eliminacion := none }

/-- A store holding only `coordinadorAna`. -/
def dbCoordinadorAna : DB :=
  { administradores := [coordinadorAna], carreras := [], admin_carrera := [],
    materias := [], horarios := [], correlatividades := [] }

/-- A self-update request mixing a personal field with a protected one. -/
def bodyRolYNombre : UpdateUserBody :=
  { nombre_administrador := some "Ana Maria", email := none,
    newContrasena := none, dni := none, telefono := none,
    rol := some "Rector", estado := none }

/-- C2, counterexample.  The claim states that when a Coordinador's
self-update includes `rol` or `estado` together with personal fields, only
the protected fields are rejected while the personal fields are applied.  In
the code the whole request is rejected with a 403 and nothing changes: the
requested name update is not applied. -/
theorem claim2_counterexample :
    updateUserByAdmin (fun s => "H" ++ s) 7 5 "Coordinador" 5 bodyRolYNombre
        dbCoordinadorAna =
      (dbCoordinadorAna, Resp.err 403 ErrMsg.coordNoRolEstado) ∧
    bodyRolYNombre.nombre_administrador = some "Ana Maria" ∧
    coordinadorAna.nombre_administrador = "Ana" := by
  decide

/-- C2, amended: when a Coordinador's self-update includes `rol` or `estado`
in the requested field set, the whole request is denied with a Forbidden
error and no requested field (personal fields included) is applied — an
all-or-nothing denial, not a field-set restriction. -/
theorem claim2_theorem (hash : String → String) (now uid : Nat)
    (body : UpdateUserBody) (db : DB) (cur : Administrador)
    (hfind : db.administradores.find?
      (fun a => a.id_administrador == uid) = some cur)
    (hfs : body.rol ≠ none ∨ body.estado ≠ none) :
    updateUserByAdmin hash now uid "Coordinador" uid body db =
      (db, Resp.err 403 ErrMsg.coordNoRolEstado) := by
  unfold updateUserByAdmin
  rw [hfind]
  rcases hfs with h | h <;> simp [h]

/-- Witness for `claim2_theorem` at the concrete fixture store. -/
theorem claim2_witness :
    dbCoordinadorAna.administradores.find?
        (fun a => a.id_administrador == 5) = some coordinadorAna ∧
    (bodyRolYNombre.rol ≠ none ∨ bodyRolYNombre.estado ≠ none) ∧
    updateUserByAdmin (fun s => s) 7 5 "Coordinador" 5 bodyRolYNombre
        dbCoordinadorAna =
      (dbCoordinadorAna, Resp.err 403 ErrMsg.coordNoRolEstado) :=
  ⟨by decide, by decide,
    claim2_theorem (fun s => s) 7 5 bodyRolYNombre dbCoordinadorAna
      coordinadorAna (by decide) (by decide)⟩

/-! ## C9: password policy coverage of credential-setting operations -/

/-- A store holding only `adminRector` (password hash `hash0`). -/
def dbResetRoot : DB :=
  { administradores := [adminRector], carreras := [], admin_carrera := [],
    materias := [], horarios := [], correlatividades := [] }

/-- C9, counterexample.  The claim states that every credential-setting
operation (creation, self-service change, password reset) rejects a weak
password before any hash is stored.  `resetPassword` stores the hash of the
three-character password `abc` — which `validatePasswordRules` rejects —
without any validation; `registerUser` likewise stores it and issues a
session token. -/
theorem claim9_counterexample :
    validatePasswordRules "abc" = some PwErr.tooShort ∧
    (resetPassword (fun s => "H" ++ s)
        (fun t => if t = "tok" then some 1 else none)
        (some "tok") (some "abc") dbResetRoot).2 = Resp.ok () ∧
    (∃ a ∈ (resetPassword (fun s => "H" ++ s)
        (fun t => if t = "tok" then some 1 else none)
        (some "tok") (some "abc") dbResetRoot).1.administradores,
      a.id_administrador = 1 ∧ a.contrasena = "Habc") ∧
    (∃ a ∈ (registerUser (fun s => "H" ++ s) 2
        { nombre_administrador := some "Nuevo", contrasena := some "abc",
          rol := none, email := none, dni := none, telefono := none }
        dbResetRoot).1.administradores, a.contrasena = "Habc") := by
  decide

/-- C9, amended: only administrator creation through the admin endpoint and
the password change inside the administrator update enforce
`validatePasswordRules` before hashing; the public registration and the
password-reset endpoints store the hash with no strength validation. -/
theorem claim9_theorem (hash : String → String) (now newId loggedId uid : Nat)
    (db : DB) (bodyC : CreateUserBody) (bodyU : UpdateUserBody)
    (cur : Administrador) (e1 e2 : PwErr)
    (hc1 : jsTruthyStr bodyC.nombre_administrador = true)
    (hc2 : jsTruthyStr bodyC.contrasena = true)
    (hc3 : jsTruthyStr bodyC.rol = true)
    (hc4 : validatePasswordRules (bodyC.contrasena.getD "") = some e1)
    (hu0 : db.administradores.find?
      (fun a => a.id_administrador == uid) = some cur)
    (hu1 : bodyU.rol = none) (hu2 : bodyU.estado = none)
    (hu3 : ∃ pw, bodyU.newContrasena = some pw ∧ 0 < (jsTrim pw).length ∧
      validatePasswordRules (jsTrim pw) = some e2) :
    createUserByAdmin hash newId bodyC db =
      (db, Resp.err 400 (ErrMsg.passwordInvalida e1)) ∧
    updateUserByAdmin hash now loggedId "Rector" uid bodyU db =
      (db, Resp.err 400 (ErrMsg.passwordInvalida e2)) := by
  obtain ⟨pw, hpw, hlen, hval⟩ := hu3
  constructor
  · unfold createUserByAdmin
    simp [hc1, hc2, hc3, hc4]
  · have hne : pw ≠ "" := by
      intro h0
      rw [h0] at hlen
      simp [jsTrim] at hlen
    unfold updateUserByAdmin
    rw [hu0]
    simp [hu1, hu2, hpw, jsOrStr, jsTruthyStr, hne, hlen, hval]

/-- Witness for `claim9_theorem` at concrete inputs. -/
theorem claim9_witness :
    jsTruthyStr (some "Nuevo") = true ∧
    jsTruthyStr (some "corta") = true ∧
    jsTruthyStr (some "Coordinador") = true ∧
    validatePasswordRules ((some "corta").getD "") = some PwErr.tooShort ∧
    dbResetRoot.administradores.find?
        (fun a => a.id_administrador == 1) = some adminRector ∧
    (∃ pw, (some "corta" : Option String) = some pw ∧
      0 < (jsTrim pw).length ∧
      validatePasswordRules (jsTrim pw) = some PwErr.tooShort) ∧
    (createUserByAdmin (fun s => s) 9
        { nombre_administrador := some "Nuevo", email := none,
          contrasena := some "corta", dni := none, telefono := none,
          rol := some "Coordinador" } dbResetRoot =
      (dbResetRoot, Resp.err 400 (ErrMsg.passwordInvalida PwErr.tooShort)) ∧
    updateUserByAdmin (fun s => s) 7 1 "Rector" 1
        { nombre_administrador := none, email := none,
          newContrasena := some "corta", dni := none, telefono := none,
          rol := none, estado := none } dbResetRoot =
      (dbResetRoot, Resp.err 400 (ErrMsg.passwordInvalida PwErr.tooShort))) :=
  ⟨by decide, by decide, by decide, by decide, by decide,
    ⟨"corta", by decide, by decide, by decide⟩,
    claim9_theorem (fun s => s) 7 9 1 1 dbResetRoot
      { nombre_administrador := some "Nuevo", email := none,
        contrasena := some "corta", dni := none, telefono := none,
        rol := some "Coordinador" }
      { nombre_administrador := none, email := none,
        newContrasena := some "corta", dni := none, telefono := none,
        rol := none, estado := none }
      adminRector PwErr.tooShort PwErr.tooShort
      (by decide) (by decide) (by decide) (by decide) (by decide)
      (by decide) (by decide) ⟨"corta", by decide, by decide, by decide⟩⟩

/-! ## C10: public registration defaults the role to Rector -/

/-- C10: when the public registration request omits the `rol` field, the
created administrator gets role `Rector` and the response token carries that
role. -/
theorem claim10_theorem (hash : String → String) (newId : Nat)
    (body : RegisterBody) (db : DB)
    (h1 : jsTruthyStr body.nombre_administrador = true)
    (h2 : jsTruthyStr body.contrasena = true)
    (h3 : body.rol = none)
    (h4 : dupAdmin db (body.nombre_administrador.getD "")
        (if jsTruthyStr body.email then body.email else none)
        (if jsTruthyStr body.dni then body.dni else none) = false) :
    ∃ r, (registerUser hash newId body db).2 = Resp.ok r ∧
      r.rol = "Rector" ∧ r.token = generateToken newId "Rector" ∧
      r.token.rol = "Rector" ∧
      (∃ a ∈ (registerUser hash newId body db).1.administradores,
        a.id_administrador = newId ∧ a.rol = "Rector") := by
  unfold registerUser
  simp [h1, h2, h3, h4, jsOrStr, generateToken]
  exact ⟨_, Or.inr rfl, rfl, rfl⟩

/-- Witness for `claim10_theorem` at concrete inputs. -/
theorem claim10_witness :
    jsTruthyStr (some "Fundadora") = true ∧
    jsTruthyStr (some "abc") = true ∧
    (none : Option String) = none ∧
    dupAdmin dbVacia ((some "Fundadora").getD "")
      (if jsTruthyStr none then none else none)
      (if jsTruthyStr none then none else none) = false ∧
    (∃ r, (registerUser (fun s => s) 1
        { nombre_administrador := some "Fundadora", contrasena := some "abc",
          rol := none, email := none, dni := none, telefono := none }
        dbVacia).2 = Resp.ok r ∧
      r.rol = "Rector" ∧ r.token = generateToken 1 "Rector" ∧
      r.token.rol = "Rector" ∧
      (∃ a ∈ (registerUser (fun s => s) 1
        { nombre_administrador := some "Fundadora", contrasena := some "abc",
          rol := none, email := none, dni := none, telefono := none }
        dbVacia).1.administradores,
        a.id_administrador = 1 ∧ a.rol = "Rector")) :=
  ⟨by decide, by decide, rfl, by decide,
    claim10_theorem (fun s => s) 1
      { nombre_administrador := some "Fundadora", contrasena := some "abc",
        rol := none, email := none, dni := none, telefono := none }
      dbVacia (by decide) (by decide) rfl (by decide)⟩

/-! ## C3: self-protection on lifecycle state -/

/-- C3: when a principal targets their own record and requests a lifecycle
state of `suspendido` or `inactivo` differing from the current one, the
update is denied with a Forbidden-class (403) response and the store is
unchanged, whatever the role; when the requested state equals the current
one, the request is never denied with the self-protection error. -/
theorem claim3_theorem (hash : String → String) (now uid : Nat)
    (loggedRol : String) (body : UpdateUserBody) (db : DB)
    (cur : Administrador)
    (hfind : db.administradores.find?
      (fun a => a.id_administrador == uid) = some cur) :
    (∀ s, body.estado = some s → (s = "suspendido" ∨ s = "inactivo") →
      s ≠ cur.estado →
      ∃ m, updateUserByAdmin hash now uid loggedRol uid body db =
        (db, Resp.err 403 m)) ∧
    (∀ s, body.estado = some s → s = cur.estado →
      (updateUserByAdmin hash now uid loggedRol uid body db).2 ≠
        Resp.err 403 ErrMsg.autoSuspension) := by
  constructor
  · intro s hs hsv hne
    by_cases hc : loggedRol = "Coordinador"
    · refine ⟨.coordNoRolEstado, ?_⟩
      unfold updateUserByAdmin
      rw [hfind]
      simp [hc, hs]
    · refine ⟨.autoSuspension, ?_⟩
      have hs0 : s ≠ "" := by rcases hsv with h | h <;> simp [h]
      unfold updateUserByAdmin
      rw [hfind]
      simp [hc, hs, jsOrStr, hs0, hsv, hne]
  · intro s hs hse
    have hjs : jsOrStr (some s) cur.estado = cur.estado := by
      rw [hse]
      simp [jsOrStr]
    unfold updateUserByAdmin
    rw [hfind]
    simp only [hs, hjs]
    split_ifs <;> simp_all

/-- Witness for `claim3_theorem` at the concrete fixture store: Ana requests
her own suspension (denied, 403), and a no-op `estado` value is never
reported as self-suspension. -/
theorem claim3_witness :
    dbCoordinadorAna.administradores.find?
        (fun a => a.id_administrador == 5) = some coordinadorAna ∧
    ((∀ s, (some "suspendido" : Option String) = some s →
      (s = "suspendido" ∨ s = "inactivo") → s ≠ coordinadorAna.estado →
      ∃ m, updateUserByAdmin (fun x => x) 7 5 "Coordinador" 5
          { nombre_administrador := none, email := none,
            newContrasena := none, dni := none, telefono := none,
            rol := none, estado := some "suspendido" } dbCoordinadorAna =
        (dbCoordinadorAna, Resp.err 403 m)) ∧
    (∀ s, (some "suspendido" : Option String) = some s →
      s = coordinadorAna.estado →
      (updateUserByAdmin (fun x => x) 7 5 "Coordinador" 5
          { nombre_administrador := none, email := none,
            newContrasena := none, dni := none, telefono := none,
            rol := none, estado := some "suspendido" }
          dbCoordinadorAna).2 ≠
        Resp.err 403 ErrMsg.autoSuspension)) :=
  ⟨by decide,
    claim3_theorem (fun x => x) 7 5 "Coordinador"
      { nombre_administrador := none, email := none, newContrasena := none,
        dni := none, telefono := none, rol := none,
        estado := some "suspendido" }
      dbCoordinadorAna coordinadorAna (by decide)⟩

/-! ## C4: atomic cascade of the administrator soft delete -/

/-- C4: soft-deleting a Coordinador removes all their `admin_carrera` rows
and flips their state to `inactivo` with both audit fields, inside one
transaction; a storage failure at any step (including the final audit-field
write, after the assignment delete) leaves the store untouched. -/
theorem claim4_theorem (now loggedId idParam : Nat) (db : DB)
    (admin : Administrador)
    (h0 : loggedId ≠ 0) (h1 : idParam ≠ loggedId)
    (hfind : db.administradores.find?
      (fun a => a.id_administrador == idParam) = some admin)
    (h2 : admin.estado ≠ "inactivo") (h3 : admin.rol = "Coordinador") :
    ((deleteUserByAdmin now loggedId idParam DelFail.nofail db).2 =
        Resp.ok idParam ∧
      (∀ ac ∈ (deleteUserByAdmin now loggedId idParam DelFail.nofail
          db).1.admin_carrera, ac.id_administrador ≠ idParam) ∧
      (∀ a ∈ (deleteUserByAdmin now loggedId idParam DelFail.nofail
          db).1.administradores, a.id_administrador = idParam →
        a.estado = "inactivo" ∧ a.fecha_eliminacion = some now ∧
        a.id_administrador_eliminacion = some loggedId)) ∧
    (∀ f, f ≠ DelFail.nofail →
      deleteUserByAdmin now loggedId idParam f db =
        (db, Resp.err 500 ErrMsg.errorInterno)) := by
  have hmem : admin ∈ db.administradores := List.mem_of_find?_eq_some hfind
  have hpa : (admin.id_administrador == idParam) = true := by
    have := List.find?_some hfind
    simpa using this
  have hupd : softDeleteAdmin now loggedId admin ≠ admin := by
    intro h
    exact h2 (congrArg Administrador.estado h).symm
  have hne0 : ((db.administradores.filter fun a =>
      a.id_administrador == idParam &&
        decide (softDeleteAdmin now loggedId a ≠ a)).length) ≠ 0 := by
    have hm : admin ∈ db.administradores.filter fun a =>
        a.id_administrador == idParam &&
          decide (softDeleteAdmin now loggedId a ≠ a) := by
      refine List.mem_filter.mpr ⟨hmem, ?_⟩
      simp [hpa, hupd]
    intro hlen
    rw [List.length_eq_zero] at hlen
    rw [hlen] at hm
    exact (List.not_mem_nil admin) hm
  have hkey : deleteUserByAdmin now loggedId idParam DelFail.nofail db =
      ({ db with
          admin_carrera := db.admin_carrera.filter fun ac =>
            !(ac.id_administrador == idParam),
          administradores := db.administradores.map fun a =>
            if a.id_administrador == idParam then
              softDeleteAdmin now loggedId a
            else a },
       Resp.ok idParam) := by
    unfold deleteUserByAdmin
    rw [hfind]
    simp [h0, h1, h2, h3]
    exact ⟨admin, hmem, by simpa using hpa, hupd⟩
  refine ⟨⟨?_, ?_, ?_⟩, ?_⟩
  · rw [hkey]
  · rw [hkey]
    intro ac hac
    have := (List.mem_filter.mp hac).2
    simpa using this
  · rw [hkey]
    intro a ha hid
    obtain ⟨b, hb, rfl⟩ := List.mem_map.mp ha
    by_cases hbid : (b.id_administrador == idParam) = true
    · simp [hbid, softDeleteAdmin]
    · rw [if_neg hbid] at hid ⊢
      exact absurd (by simpa using hid) (by simpa using hbid)
  · intro f hf
    cases f with
    | nofail => exact absurd rfl hf
    | atAssignDelete =>
      unfold deleteUserByAdmin
      rw [hfind]
      simp [h0, h1, h2, h3]
    | atAuditUpdate =>
      unfold deleteUserByAdmin
      rw [hfind]
      simp [h0, h1, h2, h3]

/-- Fixtures for the cascade: Ana coordinates two careers. -/
def carreraActiva : Carrera :=
  { id_carrera := 2, nombre_carrera := "Sistemas", duracion := "3",
    modalidad := "Presencial", anio_aprobacion := "2021",
    estado := "activa", fecha_eliminacion := none,
    id_administrador_eliminacion := none }

/-- A second active career. -/
def carreraActivaB : Carrera :=
  { id_carrera := 3, nombre_carrera := "Turismo", duracion := "2",
    modalidad := "Virtual", anio_aprobacion := "2022", estado := "activa",
    fecha_eliminacion := none, id_administrador_eliminacion := none }

/-- Store with a Rector, a Coordinador and the two career assignments. -/
def dbCascada : DB :=
  { administradores := [adminRector, coordinadorAna],
    carreras := [carreraActiva, carreraActivaB],
    admin_carrera := [{ id_administrador := 5, id_carrera := 2 },
                      { id_administrador := 5, id_carrera := 3 }],
    materias := [], horarios := [], correlatividades := [] }

/-- Witness for `claim4_theorem` on `dbCascada`. -/
theorem claim4_witness :
    (1 : Nat) ≠ 0 ∧ (5 : Nat) ≠ 1 ∧
    dbCascada.administradores.find?
        (fun a => a.id_administrador == 5) = some coordinadorAna ∧
    coordinadorAna.estado ≠ "inactivo" ∧
    coordinadorAna.rol = "Coordinador" ∧
    (((deleteUserByAdmin 9 1 5 DelFail.nofail dbCascada).2 =
        Resp.ok 5 ∧
      (∀ ac ∈ (deleteUserByAdmin 9 1 5 DelFail.nofail
          dbCascada).1.admin_carrera, ac.id_administrador ≠ 5) ∧
      (∀ a ∈ (deleteUserByAdmin 9 1 5 DelFail.nofail
          dbCascada).1.administradores, a.id_administrador = 5 →
        a.estado = "inactivo" ∧ a.fecha_eliminacion = some 9 ∧
        a.id_administrador_eliminacion = some 1)) ∧
    (∀ f, f ≠ DelFail.nofail →
      deleteUserByAdmin 9 1 5 f dbCascada =
        (dbCascada, Resp.err 500 ErrMsg.errorInterno))) :=
  ⟨by decide, by decide, by decide, by decide, by decide,
    claim4_theorem 9 1 5 dbCascada coordinadorAna (by decide) (by decide)
      (by decide) (by decide) (by decide)⟩

/-! ## C5: replace-semantics of the career coordinator assignment -/

/-- C5: a career update first deletes every Assignment row of the career and
then inserts exactly one new row iff a (truthy) coordinator id was supplied,
so after any update the career holds at most one Assignment. -/
theorem claim5_theorem (now : Nat) (user : UserCtx) (idCarrera : Nat)
    (body : UpdateCarreraBody) (db : DB)
    (hf1 : jsTruthyStr body.nombre_carrera = true)
    (hf2 : jsTruthyStr body.duracion = true)
    (hf3 : jsTruthyStr body.modalidad = true)
    (hf4 : jsTruthyStr body.anio_aprobacion = true)
    (hrol : user.rol = "Rector")
    (hev : jsTruthyStr body.estado = true →
      body.estado.getD "" = "activa" ∨ body.estado.getD "" = "cerrada" ∨
      body.estado.getD "" = "inactiva")
    (_hfound : db.carreras.any (fun c => c.id_carrera == idCarrera) = true)
    (_hcoordEx : jsTruthyNat body.id_coordinador = true →
      db.administradores.any
        (fun a => a.id_administrador == body.id_coordinador.getD 0) = true) :
    (updateCarrera now user idCarrera body db).1.admin_carrera.filter
        (fun ac => ac.id_carrera == idCarrera) =
      (if jsTruthyNat body.id_coordinador then
        [{ id_administrador := body.id_coordinador.getD 0,
           id_carrera := idCarrera }]
      else []) ∧
    ((updateCarrera now user idCarrera body db).1.admin_carrera.filter
        (fun ac => ac.id_carrera == idCarrera)).length ≤ 1 := by
  have hmain : (updateCarrera now user idCarrera body db).1.admin_carrera =
      (db.admin_carrera.filter fun ac => !(ac.id_carrera == idCarrera)) ++
      (if jsTruthyNat body.id_coordinador then
        [{ id_administrador := body.id_coordinador.getD 0,
           id_carrera := idCarrera }]
      else []) := by
    by_cases hjs : jsTruthyStr body.estado = true
    · rcases hev hjs with h | h | h <;>
        (unfold updateCarrera
         simp [hf1, hf2, hf3, hf4, hrol, hjs, h]
         split_ifs <;> rfl)
    · unfold updateCarrera
      simp [hf1, hf2, hf3, hf4, hrol, hjs]
      split_ifs <;> rfl
  have hEq : (updateCarrera now user idCarrera body db).1.admin_carrera.filter
      (fun ac => ac.id_carrera == idCarrera) =
      (if jsTruthyNat body.id_coordinador then
        [{ id_administrador := body.id_coordinador.getD 0,
           id_carrera := idCarrera }]
      else []) := by
    rw [hmain, List.filter_append]
    have hnil : (db.admin_carrera.filter fun ac =>
        !(ac.id_carrera == idCarrera)).filter
        (fun ac => ac.id_carrera == idCarrera) = [] := by
      rw [List.filter_filter]
      refine List.filter_eq_nil_iff.mpr ?_
      intro x hx
      cases hxx : (x.id_carrera == idCarrera) <;> simp [hxx]
    rw [hnil, List.nil_append]
    by_cases hco : jsTruthyNat body.id_coordinador = true <;> simp [hco]
  refine ⟨hEq, ?_⟩
  rw [hEq]
  split_ifs <;> simp

/-- Fixture body for a career update supplying coordinator 5. -/
def bodyCarreraConCoordinador : UpdateCarreraBody :=
  { nombre_carrera := some "Sistemas", duracion := some "3",
    modalidad := some "Presencial", anio_aprobacion := some "2021",
    id_coordinador := some 5, estado := none }

/-- Witness for `claim5_theorem` on `dbCascada` (career 2 starts with one
assignment; Ana also coordinates career 3). -/
theorem claim5_witness :
    jsTruthyStr bodyCarreraConCoordinador.nombre_carrera = true ∧
    jsTruthyStr bodyCarreraConCoordinador.duracion = true ∧
    jsTruthyStr bodyCarreraConCoordinador.modalidad = true ∧
    jsTruthyStr bodyCarreraConCoordinador.anio_aprobacion = true ∧
    rectorCtx.rol = "Rector" ∧
    (jsTruthyStr bodyCarreraConCoordinador.estado = true →
      bodyCarreraConCoordinador.estado.getD "" = "activa" ∨
      bodyCarreraConCoordinador.estado.getD "" = "cerrada" ∨
      bodyCarreraConCoordinador.estado.getD "" = "inactiva") ∧
    dbCascada.carreras.any (fun c => c.id_carrera == 2) = true ∧
    (jsTruthyNat bodyCarreraConCoordinador.id_coordinador = true →
      dbCascada.administradores.any (fun a => a.id_administrador ==
        bodyCarreraConCoordinador.id_coordinador.getD 0) = true) ∧
    ((updateCarrera 9 rectorCtx 2 bodyCarreraConCoordinador
        dbCascada).1.admin_carrera.filter
        (fun ac => ac.id_carrera == 2) =
      (if jsTruthyNat bodyCarreraConCoordinador.id_coordinador then
        [{ id_administrador :=
             bodyCarreraConCoordinador.id_coordinador.getD 0,
           id_carrera := 2 }]
      else []) ∧
    ((updateCarrera 9 rectorCtx 2 bodyCarreraConCoordinador
        dbCascada).1.admin_carrera.filter
        (fun ac => ac.id_carrera == 2)).length ≤ 1) :=
  ⟨by decide, by decide, by decide, by decide, rfl, by decide, by decide,
    by decide,
    claim5_theorem 9 rectorCtx 2 bodyCarreraConCoordinador dbCascada
      (by decide) (by decide) (by decide) (by decide) rfl (by decide)
      (by decide) (by decide)⟩

/-! ## C6: empty Coordinador scope yields empty lists -/

/-- C6: a Coordinador whose assignment set is empty gets an empty (never
erroneous, never global) result from each list operation: careers, subjects,
schedule slots, prerequisite edges. -/
theorem claim6_theorem (db : DB) (uid : Nat) (q : Option Nat)
    (idm idp : Nat)
    (hassign : ∀ ac ∈ db.admin_carrera, ac.id_administrador ≠ uid) :
    getCarreras
        { id_administrador := uid, rol := "Coordinador",
          carreras_a_cargo_ids := some [] } db = Resp.ok [] ∧
    getMateriasAll
        { id_administrador := uid, rol := "Coordinador",
          carreras_a_cargo_ids := some [] } q db = Resp.ok [] ∧
    getHorariosPorMateria
        { id_administrador := uid, rol := "Coordinador",
          carreras_a_cargo_ids := some [] } (some idm) db = Resp.ok [] ∧
    getCorrelatividadesPorMateria
        { id_administrador := uid, rol := "Coordinador",
          carreras_a_cargo_ids := some [] } (some idp) db = Resp.ok [] := by
  have hany : ∀ (idc : Nat), (db.admin_carrera.any fun ac =>
      ac.id_carrera == idc && ac.id_administrador == uid) = false := by
    intro idc
    refine List.any_eq_false.mpr ?_
    intro ac hac
    simp [hassign ac hac]
  refine ⟨?_, ?_, ?_, ?_⟩
  · unfold getCarreras
    have hfil : (db.carreras.filter fun c =>
        c.estado == "activa" && db.admin_carrera.any fun ac =>
          ac.id_carrera == c.id_carrera && ac.id_administrador == uid) =
        [] := by
      refine List.filter_eq_nil_iff.mpr ?_
      intro c hc
      simp [hany c.id_carrera]
    simp [hfil]
    rfl
  · unfold getMateriasAll
    simp
  · unfold getHorariosPorMateria
    simp
    intro a ha m hm h1 c hc h2 h3 h4 ac hac h5
    exact hassign ac hac
  · unfold getCorrelatividadesPorMateria
    simp
    intro a ha h1 h2 mp hmp h3 ac hac h4 h5
    exact absurd h5 (hassign ac hac)

/-- A store with data belonging only to Rector-managed careers, and no
assignment for administrator 5. -/
def dbSinAsignaciones : DB :=
  { administradores := [adminRector, coordinadorAna],
    carreras := [carreraActiva],
    admin_carrera := [{ id_administrador := 1, id_carrera := 2 }],
    materias := [materiaDeCarreraInactiva],
    horarios := [horarioDeCarreraInactiva], correlatividades := [] }

/-- Witness for `claim6_theorem`: administrator 5 has no assignments in
`dbSinAsignaciones`, which is otherwise non-empty. -/
theorem claim6_witness :
    (∀ ac ∈ dbSinAsignaciones.admin_carrera, ac.id_administrador ≠ 5) ∧
    (getCarreras
        { id_administrador := 5, rol := "Coordinador",
          carreras_a_cargo_ids := some [] } dbSinAsignaciones =
      Resp.ok [] ∧
    getMateriasAll
        { id_administrador := 5, rol := "Coordinador",
          carreras_a_cargo_ids := some [] } none dbSinAsignaciones =
      Resp.ok [] ∧
    getHorariosPorMateria
        { id_administrador := 5, rol := "Coordinador",
          carreras_a_cargo_ids := some [] } (some 10) dbSinAsignaciones =
      Resp.ok [] ∧
    getCorrelatividadesPorMateria
        { id_administrador := 5, rol := "Coordinador",
          carreras_a_cargo_ids := some [] } (some 10) dbSinAsignaciones =
      Resp.ok []) :=
  ⟨by simp [dbSinAsignaciones],
    claim6_theorem dbSinAsignaciones 5 none 10 10
      (by simp [dbSinAsignaciones])⟩

/-! ## C7: soft-delete idempotence across entity types -/

/-- `find?` over a list whose matching elements were rewritten by an
id-preserving update still finds the (updated) first match. -/
theorem find?_map_ite {α : Type} (p q : α → Bool) (u : α → α)
    (hp : ∀ x, p (u x) = p x) :
    ∀ (l : List α) (a : α), l.find? p = some a → q a = true →
      (l.map fun x => if q x then u x else x).find? p = some (u a) := by
  intro l
  induction l with
  | nil => intro a h _; simp at h
  | cons x t ih =>
    intro a hfind hq
    by_cases hpx : p x = true
    · rw [List.find?_cons_of_pos _ hpx] at hfind
      injection hfind with h
      subst h
      rw [List.map_cons]
      rw [if_pos hq]
      exact List.find?_cons_of_pos _ ((hp x).trans hpx)
    · have hpx' : p x = false := by simpa using hpx
      rw [List.find?_cons_of_neg _ (by simp [hpx'])] at hfind
      rw [List.map_cons]
      rw [List.find?_cons_of_neg _ ?_]
      · exact ih a hfind hq
      · cases hqx : q x
        · simp [hqx, hpx']
        · simp [hqx, hp, hpx']

/-- First subject soft delete succeeds; re-requesting it reports the
already-inactive condition and leaves the store untouched. -/
theorem deleteMateria_idem (now1 now2 : Nat) (ctx : UserCtx) (idm : Nat)
    (db : DB) (mat : Materia)
    (hrol : ctx.rol = "Rector")
    (hfind : db.materias.find? (fun m => m.id_materia == idm) = some mat)
    (hact : mat.estado = "activa") :
    (deleteMateria now1 ctx idm db).2 = Resp.ok () ∧
    deleteMateria now2 ctx idm (deleteMateria now1 ctx idm db).1 =
      ((deleteMateria now1 ctx idm db).1,
        Resp.err 400 ErrMsg.materiaYaInactiva) := by
  have hmem := List.mem_of_find?_eq_some hfind
  have hpa : (mat.id_materia == idm) = true := by
    have := List.find?_some hfind
    simpa using this
  have hninact : mat.estado ≠ "inactiva" := by rw [hact]; decide
  have hupd : bajaMateria now1 ctx.id_administrador mat ≠ mat := by
    intro h
    have hh := congrArg Materia.estado h
    rw [hact] at hh
    simp [bajaMateria] at hh
  have hkey : deleteMateria now1 ctx idm db =
      ({ db with materias := db.materias.map fun m =>
          if m.id_materia == idm then
            bajaMateria now1 ctx.id_administrador m
          else m }, Resp.ok ()) := by
    unfold deleteMateria
    rw [hfind]
    simp [hrol, hninact]
    exact ⟨mat, hmem, by simpa using hpa, hupd⟩
  have hfind2 : (db.materias.map fun m =>
      if m.id_materia == idm then bajaMateria now1 ctx.id_administrador m
      else m).find? (fun m => m.id_materia == idm) =
      some (bajaMateria now1 ctx.id_administrador mat) :=
    find?_map_ite (fun m => m.id_materia == idm)
      (fun m => m.id_materia == idm)
      (bajaMateria now1 ctx.id_administrador) (fun x => rfl)
      db.materias mat hfind hpa
  constructor
  · rw [hkey]
  · rw [hkey]
    dsimp only
    unfold deleteMateria
    rw [hfind2]
    simp [bajaMateria]

/-- First schedule-slot soft delete succeeds; re-requesting it reports the
already-inactive condition and leaves the store untouched. -/
theorem deleteHorario_idem (now1 now2 : Nat) (ctx : UserCtx) (idh : Nat)
    (db : DB) (hor : Horario)
    (hrol : ctx.rol = "Rector")
    (hfind : db.horarios.find? (fun h => h.id_horario == idh) = some hor)
    (hact : hor.estado = "activa") :
    (deleteHorario now1 ctx idh db).2 = Resp.ok () ∧
    deleteHorario now2 ctx idh (deleteHorario now1 ctx idh db).1 =
      ((deleteHorario now1 ctx idh db).1,
        Resp.err 400 ErrMsg.horarioYaInactivo) := by
  have hmem := List.mem_of_find?_eq_some hfind
  have hpa : (hor.id_horario == idh) = true := by
    have := List.find?_some hfind
    simpa using this
  have hninact : hor.estado ≠ "inactiva" := by rw [hact]; decide
  have hupd : bajaHorario now1 ctx.id_administrador hor ≠ hor := by
    intro h
    have hh := congrArg Horario.estado h
    rw [hact] at hh
    simp [bajaHorario] at hh
  have hkey : deleteHorario now1 ctx idh db =
      ({ db with horarios := db.horarios.map fun h =>
          if h.id_horario == idh && h.estado == "activa" then
            bajaHorario now1 ctx.id_administrador h
          else h }, Resp.ok ()) := by
    unfold deleteHorario
    rw [hfind]
    simp [hrol, hninact]
    exact ⟨hor, hmem, by simpa using hpa, by simpa using hact, hupd⟩
  have hq : (hor.id_horario == idh && hor.estado == "activa") = true := by
    simp [hpa, hact]
  have hfind2 : (db.horarios.map fun h =>
      if h.id_horario == idh && h.estado == "activa" then
        bajaHorario now1 ctx.id_administrador h
      else h).find? (fun h => h.id_horario == idh) =
      some (bajaHorario now1 ctx.id_administrador hor) :=
    find?_map_ite (fun h => h.id_horario == idh)
      (fun h => h.id_horario == idh && h.estado == "activa")
      (bajaHorario now1 ctx.id_administrador) (fun x => rfl)
      db.horarios hor hfind hq
  constructor
  · rw [hkey]
  · rw [hkey]
    dsimp only
    unfold deleteHorario
    rw [hfind2]
    simp [bajaHorario]

/-- First prerequisite-edge soft delete succeeds; re-requesting it reports
the already-inactive condition and leaves the store untouched. -/
theorem deleteCorrelatividad_idem (now1 now2 : Nat) (ctx : UserCtx)
    (idc : Nat) (db : DB) (corr : Correlatividad)
    (hrol : ctx.rol = "Rector")
    (hfind : db.correlatividades.find?
      (fun c => c.id_correlatividad == idc) = some corr)
    (hact : corr.estado = "activa") :
    (deleteCorrelatividad now1 ctx idc db).2 = Resp.ok () ∧
    deleteCorrelatividad now2 ctx idc
        (deleteCorrelatividad now1 ctx idc db).1 =
      ((deleteCorrelatividad now1 ctx idc db).1,
        Resp.err 400 ErrMsg.correlatividadYaInactiva) := by
  have hmem := List.mem_of_find?_eq_some hfind
  have hpa : (corr.id_correlatividad == idc) = true := by
    have := List.find?_some hfind
    simpa using this
  have hninact : corr.estado ≠ "inactiva" := by rw [hact]; decide
  have hupd : bajaCorrelatividad now1 ctx.id_administrador corr ≠ corr := by
    intro h
    have hh := congrArg Correlatividad.estado h
    rw [hact] at hh
    simp [bajaCorrelatividad] at hh
  have hkey : deleteCorrelatividad now1 ctx idc db =
      ({ db with correlatividades := db.correlatividades.map fun c =>
          if c.id_correlatividad == idc then
            bajaCorrelatividad now1 ctx.id_administrador c
          else c }, Resp.ok ()) := by
    unfold deleteCorrelatividad
    rw [hfind]
    simp [hrol, hninact]
    exact ⟨corr, hmem, by simpa using hpa, hupd⟩
  have hfind2 : (db.correlatividades.map fun c =>
      if c.id_correlatividad == idc then
        bajaCorrelatividad now1 ctx.id_administrador c
      else c).find? (fun c => c.id_correlatividad == idc) =
      some (bajaCorrelatividad now1 ctx.id_administrador corr) :=
    find?_map_ite (fun c => c.id_correlatividad == idc)
      (fun c => c.id_correlatividad == idc)
      (bajaCorrelatividad now1 ctx.id_administrador) (fun x => rfl)
      db.correlatividades corr hfind hpa
  constructor
  · rw [hkey]
  · rw [hkey]
    dsimp only
    unfold deleteCorrelatividad
    rw [hfind2]
    simp [bajaCorrelatividad]

/-- First career soft delete succeeds; re-requesting it reports the
already-inactive condition (400, distinct from the 404 for an absent
career) and leaves the store untouched. -/
theorem deleteCarrera_idem (now1 now2 : Nat) (ctx : UserCtx) (idca : Nat)
    (db : DB) (car : Carrera)
    (hrol : ctx.rol = "Rector")
    (hmem : car ∈ db.carreras)
    (hid : (car.id_carrera == idca) = true)
    (hact : car.estado ≠ "inactiva") :
    (deleteCarrera now1 ctx idca db).2 = Resp.ok () ∧
    deleteCarrera now2 ctx idca (deleteCarrera now1 ctx idca db).1 =
      ((deleteCarrera now1 ctx idca db).1,
        Resp.err 400 ErrMsg.carreraYaInactiva) := by
  have hupd : bajaCarrera now1 ctx.id_administrador car ≠ car := by
    intro h
    have hh := congrArg Carrera.estado h
    simp [bajaCarrera] at hh
    exact hact hh.symm
  have hkey : deleteCarrera now1 ctx idca db =
      ({ db with
          carreras := db.carreras.map fun c =>
            if c.id_carrera == idca && c.estado != "inactiva" then
              bajaCarrera now1 ctx.id_administrador c
            else c,
          admin_carrera := db.admin_carrera.filter fun ac =>
            !(ac.id_carrera == idca) }, Resp.ok ()) := by
    unfold deleteCarrera
    simp [hrol]
    intro hall
    exact absurd (hall car hmem (by simpa using hid) hact) hupd
  have hnil : ((db.carreras.map fun c =>
      if c.id_carrera == idca && c.estado != "inactiva" then
        bajaCarrera now1 ctx.id_administrador c
      else c).filter fun c =>
        c.id_carrera == idca && c.estado != "inactiva" &&
          decide (bajaCarrera now2 ctx.id_administrador c ≠ c)) = [] := by
    refine List.filter_eq_nil_iff.mpr ?_
    intro y hy
    obtain ⟨b, hb, rfl⟩ := List.mem_map.mp hy
    by_cases hc : (b.id_carrera == idca && b.estado != "inactiva") = true
    · rw [if_pos hc]
      simp [bajaCarrera]
    · rw [if_neg hc]
      simp at hc ⊢
      intro h1 h2
      exact absurd (hc h1) h2
  constructor
  · rw [hkey]
  · rw [hkey]
    dsimp only
    unfold deleteCarrera
    rw [if_neg (by simp [hrol] : ¬ctx.rol ≠ "Rector")]
    dsimp only
    rw [hnil]
    simp
    refine ⟨car, hmem, ?_⟩
    rw [if_pos ⟨by simpa using hid, hact⟩]
    simpa [bajaCarrera] using hid

/-- First administrator soft delete succeeds; re-requesting it reports the
not-found-or-already-inactive condition (404, with a message distinct from
the plain not-found one) and leaves the store untouched. -/
theorem deleteUser_idem (now1 now2 loggedId idAdm : Nat) (db : DB)
    (adm : Administrador)
    (h0 : loggedId ≠ 0) (h1 : idAdm ≠ loggedId)
    (hfind : db.administradores.find?
      (fun a => a.id_administrador == idAdm) = some adm)
    (h2 : adm.estado ≠ "inactivo") (h3 : adm.rol = "Coordinador") :
    (deleteUserByAdmin now1 loggedId idAdm DelFail.nofail db).2 =
      Resp.ok idAdm ∧
    deleteUserByAdmin now2 loggedId idAdm DelFail.nofail
        (deleteUserByAdmin now1 loggedId idAdm DelFail.nofail db).1 =
      ((deleteUserByAdmin now1 loggedId idAdm DelFail.nofail db).1,
        Resp.err 404 ErrMsg.adminNoEncontradoOYaInactivo) := by
  have hmem := List.mem_of_find?_eq_some hfind
  have hpa : (adm.id_administrador == idAdm) = true := by
    have := List.find?_some hfind
    simpa using this
  have hupd : softDeleteAdmin now1 loggedId adm ≠ adm := by
    intro h
    exact h2 (congrArg Administrador.estado h).symm
  have hkey : deleteUserByAdmin now1 loggedId idAdm DelFail.nofail db =
      ({ db with
          admin_carrera := db.admin_carrera.filter fun ac =>
            !(ac.id_administrador == idAdm),
          administradores := db.administradores.map fun a =>
            if a.id_administrador == idAdm then
              softDeleteAdmin now1 loggedId a
            else a }, Resp.ok idAdm) := by
    unfold deleteUserByAdmin
    rw [hfind]
    simp [h0, h1, h2, h3]
    exact ⟨adm, hmem, by simpa using hpa, hupd⟩
  have hfind2 : (db.administradores.map fun a =>
      if a.id_administrador == idAdm then softDeleteAdmin now1 loggedId a
      else a).find? (fun a => a.id_administrador == idAdm) =
      some (softDeleteAdmin now1 loggedId adm) :=
    find?_map_ite (fun a => a.id_administrador == idAdm)
      (fun a => a.id_administrador == idAdm)
      (softDeleteAdmin now1 loggedId) (fun x => rfl)
      db.administradores adm hfind hpa
  constructor
  · rw [hkey]
  · rw [hkey]
    dsimp only
    unfold deleteUserByAdmin
    rw [hfind2]
    simp [softDeleteAdmin, h0, h1]

/-- C7: for every entity type — subject, schedule slot, prerequisite edge,
career, administrator — the first soft delete succeeds; with no intervening
change, the second request is detected as a no-op and answered with an
already-inactive-class response that differs from the plain not-found
response of the same handler, and the store (audit fields included) is not
touched again. -/
theorem claim7_theorem (now1 now2 loggedId : Nat) (ctx : UserCtx)
    (db : DB) (idm idh idc idca idAdm : Nat)
    (mat : Materia) (hor : Horario) (corr : Correlatividad)
    (car : Carrera) (adm : Administrador)
    (hrol : ctx.rol = "Rector")
    (hm : db.materias.find? (fun m => m.id_materia == idm) = some mat)
    (hma : mat.estado = "activa")
    (hh : db.horarios.find? (fun h => h.id_horario == idh) = some hor)
    (hha : hor.estado = "activa")
    (hc : db.correlatividades.find?
      (fun c => c.id_correlatividad == idc) = some corr)
    (hca : corr.estado = "activa")
    (hcar : car ∈ db.carreras)
    (hcarid : (car.id_carrera == idca) = true)
    (hcara : car.estado ≠ "inactiva")
    (h0 : loggedId ≠ 0) (h1 : idAdm ≠ loggedId)
    (ha : db.administradores.find?
      (fun a => a.id_administrador == idAdm) = some adm)
    (haa : adm.estado ≠ "inactivo") (har : adm.rol = "Coordinador") :
    ((deleteMateria now1 ctx idm db).2 = Resp.ok () ∧
      deleteMateria now2 ctx idm (deleteMateria now1 ctx idm db).1 =
        ((deleteMateria now1 ctx idm db).1,
          Resp.err 400 ErrMsg.materiaYaInactiva) ∧
      (Resp.err 400 ErrMsg.materiaYaInactiva : Resp Unit) ≠
        Resp.err 404 ErrMsg.materiaNoEncontrada) ∧
    ((deleteHorario now1 ctx idh db).2 = Resp.ok () ∧
      deleteHorario now2 ctx idh (deleteHorario now1 ctx idh db).1 =
        ((deleteHorario now1 ctx idh db).1,
          Resp.err 400 ErrMsg.horarioYaInactivo) ∧
      (Resp.err 400 ErrMsg.horarioYaInactivo : Resp Unit) ≠
        Resp.err 404 ErrMsg.horarioNoEncontrado) ∧
    ((deleteCorrelatividad now1 ctx idc db).2 = Resp.ok () ∧
      deleteCorrelatividad now2 ctx idc
          (deleteCorrelatividad now1 ctx idc db).1 =
        ((deleteCorrelatividad now1 ctx idc db).1,
          Resp.err 400 ErrMsg.correlatividadYaInactiva) ∧
      (Resp.err 400 ErrMsg.correlatividadYaInactiva : Resp Unit) ≠
        Resp.err 404 ErrMsg.correlatividadNoEncontrada) ∧
    ((deleteCarrera now1 ctx idca db).2 = Resp.ok () ∧
      deleteCarrera now2 ctx idca (deleteCarrera now1 ctx idca db).1 =
        ((deleteCarrera now1 ctx idca db).1,
          Resp.err 400 ErrMsg.carreraYaInactiva) ∧
      (Resp.err 400 ErrMsg.carreraYaInactiva : Resp Unit) ≠
        Resp.err 404 ErrMsg.carreraNoEncontrada) ∧
    ((deleteUserByAdmin now1 loggedId idAdm DelFail.nofail db).2 =
        Resp.ok idAdm ∧
      deleteUserByAdmin now2 loggedId idAdm DelFail.nofail
          (deleteUserByAdmin now1 loggedId idAdm DelFail.nofail db).1 =
        ((deleteUserByAdmin now1 loggedId idAdm DelFail.nofail db).1,
          Resp.err 404 ErrMsg.adminNoEncontradoOYaInactivo) ∧
      (Resp.err 404 ErrMsg.adminNoEncontradoOYaInactivo : Resp Nat) ≠
        Resp.err 404 ErrMsg.adminNoEncontrado) := by
  obtain ⟨hm1, hm2⟩ := deleteMateria_idem now1 now2 ctx idm db mat hrol hm hma
  obtain ⟨hh1, hh2⟩ := deleteHorario_idem now1 now2 ctx idh db hor hrol hh hha
  obtain ⟨hc1, hc2⟩ :=
    deleteCorrelatividad_idem now1 now2 ctx idc db corr hrol hc hca
  obtain ⟨hca1, hca2⟩ :=
    deleteCarrera_idem now1 now2 ctx idca db car hrol hcar hcarid hcara
  obtain ⟨ha1, ha2⟩ :=
    deleteUser_idem now1 now2 loggedId idAdm db adm h0 h1 ha haa har
  exact ⟨⟨hm1, hm2, by decide⟩, ⟨hh1, hh2, by decide⟩,
    ⟨hc1, hc2, by decide⟩, ⟨hca1, hca2, by decide⟩,
    ⟨ha1, ha2, by decide⟩⟩

/-- An active subject of the active career 2. -/
def materiaActivaSistemas : Materia :=
  { id_materia := 11, nombre_materia := "Redes I", id_carrera := 2,
    anio := 1, campo_formacion := none, modalidad := none, formato := none,
    horas_semanales := some 4, total_horas_anuales := some 96,
    acreditacion := none, estado := "activa", fecha_eliminacion := none,
    id_administrador_eliminacion := none, vistas := 0 }

/-- An active schedule slot of subject 11. -/
def horarioActivoSistemas : Horario :=
  { id_horario := 21, id_materia := 11, dia_semana := "Martes",
    hora_inicio := "10:00", hora_fin := "12:00", estado := "activa",
    fecha_eliminacion := none, id_administrador_eliminacion := none }

/-- An active prerequisite edge with principal subject 11. -/
def correlatividadActiva : Correlatividad :=
  { id_correlatividad := 31, id_materia_principal := 11,
    id_materia_requisito := 12, tipo := "Cursar",
    estado_requisito := "Regular", estado := "activa",
    fecha_eliminacion := none, id_administrador_eliminacion := none }

/-- A store holding one active row of every entity type. -/
def dbCompleta : DB :=
  { administradores := [adminRector, coordinadorAna],
    carreras := [carreraActiva],
    admin_carrera := [{ id_administrador := 5, id_carrera := 2 }],
    materias := [materiaActivaSistemas],
    horarios := [horarioActivoSistemas],
    correlatividades := [correlatividadActiva] }

/-- Witness for `claim7_theorem` on `dbCompleta`. -/
theorem claim7_witness :
    rectorCtx.rol = "Rector" ∧
    dbCompleta.materias.find? (fun m => m.id_materia == 11) =
      some materiaActivaSistemas ∧
    dbCompleta.horarios.find? (fun h => h.id_horario == 21) =
      some horarioActivoSistemas ∧
    dbCompleta.correlatividades.find? (fun c => c.id_correlatividad == 31) =
      some correlatividadActiva ∧
    carreraActiva ∈ dbCompleta.carreras ∧
    dbCompleta.administradores.find? (fun a => a.id_administrador == 5) =
      some coordinadorAna ∧
    (((deleteMateria 61 rectorCtx 11 dbCompleta).2 = Resp.ok () ∧
      deleteMateria 62 rectorCtx 11 (deleteMateria 61 rectorCtx 11
          dbCompleta).1 =
        ((deleteMateria 61 rectorCtx 11 dbCompleta).1,
          Resp.err 400 ErrMsg.materiaYaInactiva) ∧
      (Resp.err 400 ErrMsg.materiaYaInactiva : Resp Unit) ≠
        Resp.err 404 ErrMsg.materiaNoEncontrada) ∧
    ((deleteHorario 61 rectorCtx 21 dbCompleta).2 = Resp.ok () ∧
      deleteHorario 62 rectorCtx 21 (deleteHorario 61 rectorCtx 21
          dbCompleta).1 =
        ((deleteHorario 61 rectorCtx 21 dbCompleta).1,
          Resp.err 400 ErrMsg.horarioYaInactivo) ∧
      (Resp.err 400 ErrMsg.horarioYaInactivo : Resp Unit) ≠
        Resp.err 404 ErrMsg.horarioNoEncontrado) ∧
    ((deleteCorrelatividad 61 rectorCtx 31 dbCompleta).2 = Resp.ok () ∧
      deleteCorrelatividad 62 rectorCtx 31
          (deleteCorrelatividad 61 rectorCtx 31 dbCompleta).1 =
        ((deleteCorrelatividad 61 rectorCtx 31 dbCompleta).1,
          Resp.err 400 ErrMsg.correlatividadYaInactiva) ∧
      (Resp.err 400 ErrMsg.correlatividadYaInactiva : Resp Unit) ≠
        Resp.err 404 ErrMsg.correlatividadNoEncontrada) ∧
    ((deleteCarrera 61 rectorCtx 2 dbCompleta).2 = Resp.ok () ∧
      deleteCarrera 62 rectorCtx 2 (deleteCarrera 61 rectorCtx 2
          dbCompleta).1 =
        ((deleteCarrera 61 rectorCtx 2 dbCompleta).1,
          Resp.err 400 ErrMsg.carreraYaInactiva) ∧
      (Resp.err 400 ErrMsg.carreraYaInactiva : Resp Unit) ≠
        Resp.err 404 ErrMsg.carreraNoEncontrada) ∧
    ((deleteUserByAdmin 61 1 5 DelFail.nofail dbCompleta).2 =
        Resp.ok 5 ∧
      deleteUserByAdmin 62 1 5 DelFail.nofail
          (deleteUserByAdmin 61 1 5 DelFail.nofail dbCompleta).1 =
        ((deleteUserByAdmin 61 1 5 DelFail.nofail dbCompleta).1,
          Resp.err 404 ErrMsg.adminNoEncontradoOYaInactivo) ∧
      (Resp.err 404 ErrMsg.adminNoEncontradoOYaInactivo : Resp Nat) ≠
        Resp.err 404 ErrMsg.adminNoEncontrado)) :=
  ⟨rfl, by decide, by decide, by decide, by simp [dbCompleta], by decide,
    claim7_theorem 61 62 1 rectorCtx dbCompleta 11 21 31 2 5
      materiaActivaSistemas horarioActivoSistemas correlatividadActiva
      carreraActiva coordinadorAna rfl (by decide) (by decide) (by decide)
      (by decide) (by decide) (by decide) (by simp [dbCompleta]) (by decide)
      (by decide) (by decide) (by decide) (by decide) (by decide)
      (by decide)⟩

/-! ## C8: whole-block page-break decision of the layout engine -/

/-- Auxiliary: the subject-row fold only emits items on the given page. -/
theorem drawRows_aux_pages (measure : String → ℚ → ℚ) (page : Nat) :
    ∀ (ms : List MateriaPlan) (acc : ℚ × List Placed),
      (∀ it ∈ acc.2, it.page = page) →
      ∀ it ∈ (ms.foldl (fun acc m =>
          (acc.1 + rowHeightOf measure m,
           acc.2 ++ [{ page := page, y := acc.1,
                       item := DrawItem.subjectRow m.id_materia }])) acc).2,
        it.page = page := by
  intro ms
  induction ms with
  | nil => intro acc h it hit; exact h it hit
  | cons m t ih =>
    intro acc h
    rw [List.foldl_cons]
    refine ih _ ?_
    intro it hit
    rcases List.mem_append.mp hit with h1 | h2
    · exact h it h1
    · simp at h2
      simp [h2]

/-- Every subject row placed by `drawRows` is on the given page. -/
theorem drawRows_pages (measure : String → ℚ → ℚ) (page : Nat)
    (y0 : ℚ) (ms : List MateriaPlan) :
    ∀ it ∈ (drawRows measure page y0 ms).2, it.page = page := by
  unfold drawRows
  exact drawRows_aux_pages measure page ms (y0, []) (by simp)

/-- C8: when the current vertical position plus the block's precomputed
total height (year header + column-header row + sum of measured subject row
heights + totals row + trailing spacing) exceeds the usable page height, a
new page is started before any part of the block is drawn: every drawing
primitive of the block lands on the fresh page, the first one is the year
header at the top of that page, and nothing of the block remains on the
previous page. -/
theorem claim8_theorem (measure : String → ℚ → ℚ) (pageH : ℚ)
    (s : LayoutState) (anio : Nat) (materias : List MateriaPlan)
    (h : s.y + (mergedAnioHeaderHeight + headerHeight +
      (materias.map (rowHeightOf measure)).sum + totalRowHeight +
      spaceAfterBlock) > pageH - pageBottomMargin) :
    (∀ it ∈ (drawBlock measure pageH s anio materias).2,
      it.page = s.page + 1) ∧
    (drawBlock measure pageH s anio materias).2.head? =
      some { page := s.page + 1, y := pageTopY + smallSpaceHeight,
             item := DrawItem.anioHeader anio } ∧
    (∀ it ∈ (drawBlock measure pageH s anio materias).2,
      it.page ≠ s.page) := by
  have hsmall : (0 : ℚ) < smallSpaceHeight := by
    unfold smallSpaceHeight
    norm_num
  have hcond : s.y + (smallSpaceHeight + blockHeightOf measure materias +
      spaceAfterBlock) > pageH - pageBottomMargin := by
    unfold blockHeightOf
    linarith
  have hpages : ∀ it ∈ (drawBlock measure pageH s anio materias).2,
      it.page = s.page + 1 := by
    intro it hit
    unfold drawBlock at hit
    dsimp only at hit
    rw [if_pos hcond] at hit
    dsimp only at hit
    simp only [List.mem_cons, List.mem_append, List.mem_singleton] at hit
    rcases hit with (h1 | h1 | h1) | h1 | h1
    · rw [h1]
    · rw [h1]
    · exact drawRows_pages measure (s.page + 1) _ materias it h1
    · rw [h1]
    · exact absurd h1 (List.not_mem_nil it)
  refine ⟨hpages, ?_, ?_⟩
  · unfold drawBlock
    dsimp only
    rw [if_pos hcond]
    simp
  · intro it hit
    rw [hpages it hit]
    exact Nat.succ_ne_self s.page

/-- Witness for `claim8_theorem`: a constant-height measurer, an A4
landscape page (595.28 points high) and a one-subject block starting at
y = 500. -/
theorem claim8_witness :
    ((⟨0, 500⟩ : LayoutState).y + (mergedAnioHeaderHeight + headerHeight +
      (([{ id_materia := 11, nombre_materia := "Redes I",
           cursarAprobada := [], cursarRegular := [],
           rendirAprobada := [] }] : List MateriaPlan).map
        (rowHeightOf (fun _ _ => 10))).sum + totalRowHeight +
      spaceAfterBlock) > (59528 / 100 : ℚ) - pageBottomMargin) ∧
    ((∀ it ∈ (drawBlock (fun _ _ => 10) (59528 / 100) ⟨0, 500⟩ 1
        [{ id_materia := 11, nombre_materia := "Redes I",
           cursarAprobada := [], cursarRegular := [],
           rendirAprobada := [] }]).2, it.page = 0 + 1) ∧
    (drawBlock (fun _ _ => 10) (59528 / 100) ⟨0, 500⟩ 1
        [{ id_materia := 11, nombre_materia := "Redes I",
           cursarAprobada := [], cursarRegular := [],
           rendirAprobada := [] }]).2.head? =
      some { page := 0 + 1, y := pageTopY + smallSpaceHeight,
             item := DrawItem.anioHeader 1 } ∧
    (∀ it ∈ (drawBlock (fun _ _ => 10) (59528 / 100) ⟨0, 500⟩ 1
        [{ id_materia := 11, nombre_materia := "Redes I",
           cursarAprobada := [], cursarRegular := [],
           rendirAprobada := [] }]).2, it.page ≠ 0)) :=
  ⟨by norm_num [mergedAnioHeaderHeight, headerHeight, rowHeightOf,
      totalRowHeight, spaceAfterBlock, pageBottomMargin, minRowHeight,
      colW, COL_WIDTHS, joinComma],
    claim8_theorem (fun _ _ => 10) (59528 / 100) ⟨0, 500⟩ 1
      [{ id_materia := 11, nombre_materia := "Redes I",
         cursarAprobada := [], cursarRegular := [], rendirAprobada := [] }]
      (by norm_num [mergedAnioHeaderHeight, headerHeight, rowHeightOf,
        totalRowHeight, spaceAfterBlock, pageBottomMargin, minRowHeight,
        colW, COL_WIDTHS, joinComma])⟩

end ProyectoCursado
